import Mathlib

/-!
Verification of the 2D/3D browser game client (mode transitions, task game,
training/challenge arenas, task storage) against its natural-language
specification.  The definitions below are a shallow embedding of the
JavaScript sources: plain-data records become structures, numbers become
rationals (`ℚ`) or integers, in-place mutation becomes functional record
update, and the imperative loops (bullet update loops, platform collision
loops) become structural recursion / folds that process elements in the
same order as the source.  DOM manipulation, canvas drawing, logging and
the (disabled) diagnostics are omitted: they do not touch the game state
fields the specification talks about.  `Date.now()` is passed in as an
explicit `now` argument where the source reads the clock.
-/

namespace AppGame

/-- A 2D point, used for player positions and velocities. -/
structure Vec2 where
  x : ℚ
  y : ℚ
deriving Repr, DecidableEq

/-- Canvas dimensions (the source creates canvases at window size, so
`window.innerWidth`/`window.innerHeight` are modelled by the same record). -/
structure Canvas where
  width : ℚ
  height : ℚ
deriving Repr, DecidableEq

/-- A task record `{id, text, completed, requiredScore}` as stored in
`gameState.tasks` (taskGameSetup.js). -/
structure Task where
  id : String
  text : String
  completed : Bool
  requiredScore : Int
deriving Repr, DecidableEq

instance : Inhabited Task := ⟨⟨"", "", false, 0⟩⟩

/-- A projectile record `{x, y, vx, vy, size}` from `gameState.bullets`
(the `color` field is presentational and omitted). -/
structure Bullet where
  x : ℚ
  y : ℚ
  vx : ℚ
  vy : ℚ
  size : ℚ
deriving Repr, DecidableEq

/-- A static platform rectangle `{x, y, width, height}`. -/
structure Platform where
  x : ℚ
  y : ℚ
  width : ℚ
  height : ℚ
deriving Repr, DecidableEq

/-- A task object floating above a platform, created by
`setupTaskGameEnvironment` (taskGameSetup.js).  The `color` field is
presentational and omitted; `index` is the stored index into
`gameState.tasks` (a JS number, hence `Int`). -/
structure TaskObj where
  x : ℚ
  y : ℚ
  width : ℚ
  height : ℚ
  text : String
  completed : Bool
  locked : Bool
  requiredScore : Int
  index : Int
deriving Repr, DecidableEq

instance : Inhabited TaskObj := ⟨⟨0, 0, 0, 0, "", false, false, 0, 0⟩⟩

/-- A task-game UI button (`New Task` / `Exit`); `action` is the string
tag tested by the bullet loop (`new_task` or `exit`). -/
structure Button where
  x : ℚ
  y : ℚ
  width : ℚ
  height : ℚ
  action : String
deriving Repr, DecidableEq

/-- A 2D enemy `{x, y, width, height, health, type}` (twoDSetup.js);
`kind` holds the `type` string (`basic` or `app`). -/
structure Enemy where
  x : ℚ
  y : ℚ
  width : ℚ
  height : ℚ
  health : Int
  kind : String
deriving Repr, DecidableEq

instance : Inhabited Enemy := ⟨⟨0, 0, 0, 0, 0, ""⟩⟩

/-- A 2D world object `{x, y, width, height, type, app}` (twoDSetup.js):
`kind` is the `type` string (`portal` or `app`), `app` the app name. -/
structure GameApp where
  x : ℚ
  y : ℚ
  width : ℚ
  height : ℚ
  kind : String
  app : String
deriving Repr, DecidableEq

/-- A training-arena target (trainingArena2DSetup.js `createTarget`). -/
structure Target where
  x : ℚ
  y : ℚ
  width : ℚ
  height : ℚ
  isMoving : Bool
  vx : ℚ
  vy : ℚ
  points : Int
deriving Repr, DecidableEq

instance : Inhabited Target := ⟨⟨0, 0, 0, 0, false, 0, 0, 0⟩⟩

/-- A visual effect record (muzzle flash / hit effect). -/
structure Effect where
  x : ℚ
  y : ℚ
  size : ℚ
  opacity : ℚ
  kind : String
  createdAt : Int
deriving Repr, DecidableEq

/-- The mode strings used by `gameState.mode`. -/
inductive GameMode where
  | mode3D
  | mode2D
  | taskGame
  | training2D
  | taskArena2D
deriving Repr, DecidableEq

/-- The keyboard flags the update loops read (`gameState.keys`).  The
source stores a map from key name to pressed-flag; only these keys are
ever consulted. -/
structure Keys where
  a : Bool
  arrowleft : Bool
  d : Bool
  arrowright : Bool
  w : Bool
  arrowup : Bool
  space : Bool
  l : Bool
  e : Bool
  t : Bool
deriving Repr, DecidableEq

/-- All key flags cleared, as produced by `resetAllKeyStates` and the
`for (const key in state.keys) state.keys[key] = false` loops. -/
def Keys.allFalse : Keys :=
  ⟨false, false, false, false, false, false, false, false, false, false⟩

/-- The `currentTaskChallenge` record `{task, taskObj, requiredScore}`.
The source stores object references aliased into `gameState.tasks` /
`gameState.taskObjects`; the embedding stores their indices instead
(`taskIdx` = `taskObj.index` into `tasks`, `objIdx` = position in
`taskObjects`). -/
structure Challenge where
  taskIdx : Int
  objIdx : Nat
  requiredScore : Int
deriving Repr, DecidableEq

/-- The shared mutable game-state object (gameState.js), restricted to
the fields the verified operations read or write.  Frame counters, FPS
bookkeeping and 3D-only fields are omitted. -/
structure GState where
  mode : GameMode
  previousMode : Option GameMode
  keys : Keys
  playerPosition : Vec2
  taskGamePosition : Vec2
  savedTaskGamePosition : Option Vec2
  velocity : Vec2
  isJumping : Bool
  playerFacingDirection : Int
  bullets : List Bullet
  tasks : List Task
  taskObjects : List TaskObj
  taskGamePlatforms : List Platform
  taskGameButtons : List Button
  platforms : List Platform
  enemies : List Enemy
  gameApps : List GameApp
  taskTokens : Int
  currentTaskChallenge : Option Challenge
  isPaused : Bool
  graphicsQuality : String
  gravity : ℚ
  score : Int
  lastShootTime : Int
  shootCooldown : Int
  canvas : Canvas
deriving Repr, DecidableEq

/-! ## Storage adapter (TaskStorageService)

`TaskStorageService` keeps two localStorage cells: a JSON array of task
records and a JSON number of tokens.  A cell is modelled as either
missing (`localStorage.getItem` returns null), corrupt (present but
`JSON.parse` throws), or a well-formed stored value.  `JSON.stringify`
followed by `JSON.parse` on plain task records is lossless, so a saved
value is modelled as the value itself. -/

inductive StoredCell (α : Type) where
  | missing
  | corrupt
  | stored (v : α)
deriving Repr, DecidableEq

/-- The two persisted cells (keys `taskGame_tasks` and `taskGame_tokens`). -/
structure Storage where
  tasksCell : StoredCell (List Task)
  tokensCell : StoredCell Int
deriving Repr, DecidableEq

/-- `TaskStorageService.getTasks`: parse the stored JSON array; a missing
cell yields `[]` (the `tasks ? JSON.parse(tasks) : []` fallback) and a
corrupt cell yields `[]` (the catch branch). -/
def getTasks (st : Storage) : List Task :=
  match st.tasksCell with
  | StoredCell.missing => []
  | StoredCell.corrupt => []
  | StoredCell.stored v => v

/-- `TaskStorageService.saveTasks`: serialize and store the array,
returning the success flag. -/
def saveTasks (tasks : List Task) (st : Storage) : Bool × Storage :=
  (true, { st with tasksCell := StoredCell.stored tasks })

/-- `TaskStorageService.getTokens`: parse the stored JSON number; missing
yields 0 (the `tokens ? JSON.parse(tokens) : 0` fallback) and corrupt
yields 0 (the catch branch). -/
def getTokens (st : Storage) : Int :=
  match st.tokensCell with
  | StoredCell.missing => 0
  | StoredCell.corrupt => 0
  | StoredCell.stored v => v

/-- `TaskStorageService.saveTokens`. -/
def saveTokens (tokenCount : Int) (st : Storage) : Bool × Storage :=
  (true, { st with tokensCell := StoredCell.stored tokenCount })

/-! ## Graphics quality (gameState.js) -/

/-- `gameState.setGraphicsQuality(quality)`: accepts only the strings in
`['low', 'medium', 'high']`; on success updates `graphicsQuality` and
returns true, otherwise returns false leaving the state unchanged.  (The
localStorage mirror write is persistence-only and not modelled here.) -/
def setGraphicsQuality (quality : String) (s : GState) : Bool × GState :=
  if ["low", "medium", "high"].contains quality then
    (true, { s with graphicsQuality := quality })
  else
    (false, s)

/-! ## Collision predicates

Every bullet/entity test in the source is the same copy-pasted
open-rectangle check `b.x > r.x && b.x < r.x + r.width && b.y > r.y &&
b.y < r.y + r.height`. -/

/-- The shared open-rectangle overlap test. -/
def hitsRect (b : Bullet) (rx ry rw rh : ℚ) : Bool :=
  decide (rx < b.x) && decide (b.x < rx + rw) &&
    decide (ry < b.y) && decide (b.y < ry + rh)

/-- Bullet/task-object overlap (updateTaskGame). -/
def hitsTaskObj (b : Bullet) (o : TaskObj) : Bool :=
  hitsRect b o.x o.y o.width o.height

/-- Bullet/button overlap (updateTaskGame). -/
def hitsButton (b : Bullet) (btn : Button) : Bool :=
  hitsRect b btn.x btn.y btn.width btn.height

/-- Bullet/enemy overlap (update2D). -/
def hitsEnemy (b : Bullet) (en : Enemy) : Bool :=
  hitsRect b en.x en.y en.width en.height

/-- Bullet/game-app overlap (update2D). -/
def hitsApp (b : Bullet) (a : GameApp) : Bool :=
  hitsRect b a.x a.y a.width a.height

/-- Bullet/target overlap (trainingArena2DSetup checkBulletCollisions). -/
def hitsTarget (b : Bullet) (t : Target) : Bool :=
  hitsRect b t.x t.y t.width t.height

/-- One frame of bullet motion: `bullet.x += bullet.vx; bullet.y += bullet.vy`. -/
def moveBullet (b : Bullet) : Bullet :=
  { b with x := b.x + b.vx, y := b.y + b.vy }

/-- The shared off-screen test `bullet.x < 0 || bullet.x > width ||
bullet.y < 0 || bullet.y > height`. -/
def offscreenB (c : Canvas) (b : Bullet) : Bool :=
  decide (b.x < 0) || decide (c.width < b.x) || decide (b.y < 0) || decide (c.height < b.y)

/-! ## Task game (taskGameSetup.js) -/

/-- JS array read `tasks[idx]` for a JS-number index: a negative or
out-of-range index reads `undefined`, modelled as `none`. -/
def taskAt (tasks : List Task) (idx : Int) : Option Task :=
  if 0 ≤ idx then tasks[idx.toNat]? else none

/-- JS `tasks.splice(idx, 1)` for a nonnegative in-range index.  (A
negative `splice` offset counts from the end of the array; that case is
never produced by the sources, which only store indices assigned by
`setupTaskGameEnvironment`, and is left as the identity here.) -/
def spliceOneAt (tasks : List Task) (idx : Int) : List Task :=
  if 0 ≤ idx then tasks.eraseIdx idx.toNat else tasks

/-- The re-indexing loop after archiving: `for (let k = j; k <
taskObjects.length; k++) taskObjects[k].index--` applied to the
post-splice list, decrementing the stored index of every object at
position `j` or later. -/
def decFrom : Nat → List TaskObj → List TaskObj
  | _, [] => []
  | 0, o :: rest => { o with index := o.index - 1 } :: decFrom 0 rest
  | j + 1, o :: rest => o :: decFrom j rest

/-- `createNewTaskInput` (the `new_task` button action): pauses the game
and opens a DOM input box (the DOM part is outside the embedding). -/
def createNewTaskInputEffect (s : GState) : GState :=
  { s with isPaused := true }

/-- `closeTaskGame` (the `exit` button action): assigns mode `2D`
directly and then through `setMode` (which therefore records `2D` as the
previous mode), clears the bullets, unpauses and zeroes the velocity. -/
def closeTaskGame (s : GState) : GState :=
  { s with mode := GameMode.mode2D, previousMode := some GameMode.mode2D,
           bullets := [], isPaused := false, velocity := ⟨0, 0⟩ }

/-- The synchronous part of `activateTaskArenaChallenge`: guards on a
defined challenge, re-saves the task-game position and resets the key
flags.  The remainder (the mode transition into `2D_TASK_ARENA` and the
arena construction) runs later inside a dynamic `import(...).then`
callback and is not part of this synchronous update. -/
def activateTaskArenaChallengeSync (s : GState) : GState :=
  match s.currentTaskChallenge with
  | none => s
  | some _ =>
    { s with savedTaskGamePosition := some s.taskGamePosition, keys := Keys.allFalse }

/-- One iteration of the task-game bullet loop at bullet index `i`
(updateTaskGame, the body of `for (let i = bullets.length - 1; i >= 0;
i--)`).  Returns the updated state together with the `tasksChanged`
flag.  Mirrors the source exactly: move the bullet, drop it when
off-screen, test the task objects in order (first match wins: a locked
object starts a challenge, a completed underlying task is archived with
the re-index loop, and in each case the bullet is spliced out), and then
— with no `bulletRemoved` guard, unlike update2D — test the UI buttons
against the same coordinates and splice at `i` again on a button hit. -/
def bulletStep (c : Canvas) (i : Nat) (s : GState) (tasksChanged : Bool) :
    GState × Bool :=
  match s.bullets[i]? with
  | none => (s, tasksChanged)
  | some b =>
    let b2 := moveBullet b
    let s := { s with bullets := s.bullets.set i b2 }
    if offscreenB c b2 then
      ({ s with bullets := s.bullets.eraseIdx i }, tasksChanged)
    else
      let afterTasks :=
        match s.taskObjects.findIdx? (fun o => hitsTaskObj b2 o) with
        | none => (s, tasksChanged)
        | some j =>
          let o := s.taskObjects[j]!
          if o.locked then
            let s := { s with bullets := s.bullets.eraseIdx i }
            let s := { s with
              currentTaskChallenge := some
                { taskIdx := o.index, objIdx := j,
                  requiredScore := if o.requiredScore = 0 then 300 else o.requiredScore },
              savedTaskGamePosition := some s.taskGamePosition }
            (activateTaskArenaChallengeSync s, tasksChanged)
          else
            let isDone := ((taskAt s.tasks o.index).map Task.completed).getD false
            let s :=
              if isDone then
                { s with tasks := spliceOneAt s.tasks o.index,
                         taskObjects := decFrom j (s.taskObjects.eraseIdx j) }
              else s
            ({ s with bullets := s.bullets.eraseIdx i }, tasksChanged || isDone)
      let s := afterTasks.1
      let tasksChanged := afterTasks.2
      match s.taskGameButtons.find? (fun btn => hitsButton b2 btn) with
      | none => (s, tasksChanged)
      | some btn =>
        let s :=
          if btn.action = "new_task" then createNewTaskInputEffect s
          else if btn.action = "exit" then closeTaskGame s
          else s
        ({ s with bullets := s.bullets.eraseIdx i }, tasksChanged)

/-- The task-game bullet loop, iterating `bulletStep` over indices
`k-1, k-2, …, 0` (the source loop counts `i` down from
`bullets.length - 1`). -/
def bulletLoopGo (c : Canvas) : Nat → GState × Bool → GState × Bool
  | 0, acc => acc
  | k + 1, acc => bulletLoopGo c k (bulletStep c k acc.1 acc.2)

/-- `setupTaskGameEnvironment(state, canvas)`: rebuilds the platforms
(one ground platform plus one per task, three per row), the task objects
floating above them, and the two UI buttons; clamps the player position,
re-synchronizes `playerPosition`, zeroes the velocity, clears the key
flags and defaults the shoot cooldown.  (The disabled diagnostics and
the canvas fallback are omitted; the `color` field is presentational.) -/
def setupTaskGameEnvironment (s : GState) (c : Canvas) : GState :=
  let taskPlatform : Nat → Platform := fun i =>
    { x := 100 + ((i % 3 : Nat) : ℚ) * 300,
      y := c.height - 150 - ((i / 3 : Nat) : ℚ) * 100,
      width := 250, height := 20 }
  let platforms :=
    ({ x := 0, y := c.height - 50, width := c.width, height := 50 } : Platform)
      :: s.tasks.mapIdx (fun i _ => taskPlatform i)
  let objs := s.tasks.mapIdx (fun i t =>
    let p := taskPlatform i
    let rs : Int := t.requiredScore
    ({ x := p.x + p.width / 2 - 30, y := p.y - 60, width := 60, height := 60,
       text := t.text, completed := t.completed, locked := !t.completed,
       requiredScore := (if rs = 0 then (300 : Int) else rs),
       index := (i : Int) } : TaskObj))
  let buttons : List Button :=
    [ { x := 50, y := 50, width := 120, height := 50, action := "new_task" },
      { x := c.width - 150, y := 50, width := 120, height := 50, action := "exit" } ]
  let pos := s.taskGamePosition
  let pos := if pos.x < 0 then { pos with x := 0 } else pos
  let pos := if c.width - 40 < pos.x then { pos with x := c.width - 40 } else pos
  let pos := if c.height - 50 < pos.y then { pos with y := c.height - 100 } else pos
  { s with taskGamePlatforms := platforms, taskObjects := objs,
           taskGameButtons := buttons, taskGamePosition := pos,
           playerPosition := pos, velocity := ⟨0, 0⟩, isJumping := false,
           keys := Keys.allFalse,
           shootCooldown := if s.shootCooldown = 0 then 300 else s.shootCooldown }

/-- `shootTaskGame()`: pushes a bullet at the player, offset by facing
direction, with velocity `(direction * 10, -5)`. -/
def shootTaskGame (s : GState) : GState :=
  let direction := s.playerFacingDirection
  let b : Bullet :=
    { x := s.taskGamePosition.x + (if 0 < direction then 40 else 0),
      y := s.taskGamePosition.y + 25,
      vx := (direction : ℚ) * 10, vy := -5, size := 5 }
  { s with bullets := s.bullets ++ [b] }

/-- The body of the task-game platform-collision loop: the landing test
against the previous frame vertical extent (`y+50 >= top` and
`y+40 < top`), which snaps the player onto the platform top, zeroes the
vertical velocity and clears the airborne flag, keeping `playerPosition`
in sync. -/
def taskGameLandOn (st : GState) (p : Platform) : GState :=
  if decide (p.y ≤ st.taskGamePosition.y + 50) &&
      decide (st.taskGamePosition.y + 40 < p.y) &&
      decide (p.x < st.taskGamePosition.x + 30) &&
      decide (st.taskGamePosition.x < p.x + p.width) then
    { st with taskGamePosition := { st.taskGamePosition with y := p.y - 50 },
              velocity := { st.velocity with y := 0 }, isJumping := false,
              playerPosition := { st.playerPosition with y := p.y - 50 } }
  else st

/-- The boundary enforcement of `updateTaskGame`: clamp `x` into the
canvas, and respawn at the fixed centre-bottom location (zeroing the
vertical velocity and re-syncing `playerPosition`) when the player falls
past the canvas height. -/
def taskGameBounds (c : Canvas) (s : GState) : GState :=
  let s :=
    if s.taskGamePosition.x < 0 then
      { s with taskGamePosition := { s.taskGamePosition with x := 0 } }
    else s
  let s :=
    if c.width - 40 < s.taskGamePosition.x then
      { s with taskGamePosition := { s.taskGamePosition with x := c.width - 40 } }
    else s
  if c.height < s.taskGamePosition.y then
    { s with taskGamePosition := ⟨c.width / 2, c.height - 100⟩,
             velocity := { s.velocity with y := 0 },
             playerPosition := ⟨c.width / 2, c.height - 100⟩ }
  else s

/-- The movement section of `updateTaskGame`: horizontal movement, jump,
gravity (no fall-speed clamp in this variant), Euler integration of
`taskGamePosition` with `playerPosition` kept in sync, the platform
landing loop, and the canvas boundary clamps with the bottom respawn. -/
def taskGameMovePhase (s : GState) (c : Canvas) : GState :=
  let gravity : ℚ := if s.gravity = 0 then 1 / 2 else s.gravity
  let v := { s.velocity with x := 0 }
  let vf :=
    if s.keys.a || s.keys.arrowleft then ({ v with x := -5 }, (-1 : Int))
    else (v, s.playerFacingDirection)
  let vf :=
    if s.keys.d || s.keys.arrowright then ({ vf.1 with x := 5 }, (1 : Int))
    else vf
  let vj :=
    if (s.keys.w || s.keys.arrowup || s.keys.space) && !s.isJumping then
      ({ vf.1 with y := -15 }, true)
    else (vf.1, s.isJumping)
  let v := { vj.1 with y := vj.1.y + gravity }
  let pos : Vec2 := ⟨s.taskGamePosition.x + v.x, s.taskGamePosition.y + v.y⟩
  let s := { s with velocity := v, playerFacingDirection := vf.2,
                    isJumping := vj.2, taskGamePosition := pos,
                    playerPosition := pos }
  let s : GState := s.taskGamePlatforms.foldl taskGameLandOn s
  taskGameBounds c s

/-- `updateTaskGame(deltaTime, state, canvas)`: the per-frame task-game
update.  Early-returns when paused or when a challenge is active; then
runs the movement section, the bullet loop, the environment rebuild when
a task was archived, and the fire key under the cooldown (`Date.now()`
passed in as `now`).  The source's trailing `T`-key diagnostic hook
(lines 420-424) calls `runDiagnosticTest`, which re-enters
`updateTaskGame` before `keys['t']` is ever reset, so with `keys.t`
set (and the early-return guard not taken) the source recurses without
bound and never completes a tick; no total function can render that
branch, so this embedding describes the completed tick and is faithful
exactly on states that do not enter the branch — the early-return
states, and states with `keys.t = false`.  Theorems that quantify over
states therefore carry a `keys.t = false` hypothesis. -/
def updateTaskGame (deltaTime : ℚ) (s : GState) (c : Canvas) (now : Int) : GState :=
  if s.isPaused || s.currentTaskChallenge.isSome then s
  else
    let s := taskGameMovePhase s c
    let res := bulletLoopGo c s.bullets.length (s, false)
    let s := res.1
    let s := if res.2 then setupTaskGameEnvironment s c else s
    let s :=
      if s.keys.l then
        if s.shootCooldown < now - s.lastShootTime then
          let s := { s with lastShootTime := now }
          let s := shootTaskGame s
          { s with keys := { s.keys with l := false } }
        else s
      else s
    s

/-- `onTaskChallengeComplete(scoreAchieved)` (taskGameSetup.js): reads
the active challenge; on `score >= requiredScore` marks the aliased task
completed, unlocks and completes the task object, and increments the
token counter; on failure shows a notification only.  In both cases the
challenge reference is cleared afterwards.  (The storage write and the
deferred `returnToTaskGame` transition are outside this synchronous
step.) -/
def onTaskChallengeComplete (scoreAchieved : Int) (s : GState) : GState :=
  match s.currentTaskChallenge with
  | none => s
  | some ch =>
    let s2 :=
      if ch.requiredScore ≤ scoreAchieved then
        let tasks2 :=
          match taskAt s.tasks ch.taskIdx with
          | none => s.tasks
          | some t => s.tasks.set ch.taskIdx.toNat { t with completed := true }
        let objs2 :=
          match s.taskObjects[ch.objIdx]? with
          | none => s.taskObjects
          | some o =>
            s.taskObjects.set ch.objIdx { o with locked := false, completed := true }
        { s with tasks := tasks2, taskObjects := objs2,
                 taskTokens := s.taskTokens + 1 }
      else s
    { s2 with currentTaskChallenge := none }

/-! ## Mode transition manager (modeTransitionManager.js) -/

/-- `resetAllKeyStates()`. -/
def resetAllKeyStates (s : GState) : GState :=
  { s with keys := Keys.allFalse }

/-- `preservePlayerState(fromMode, toMode)`: only the
`2D_TASK_ARENA → TASK_GAME` pair is special-cased — it unpauses, clears
the challenge reference and restores the saved task-game position (or a
default at the window centre) into both position fields, zeroing the
velocity; every other pair falls through unchanged. -/
def preservePlayerState (fromMode toMode : GameMode) (s : GState) : GState :=
  if fromMode = GameMode.taskArena2D ∧ toMode = GameMode.taskGame then
    let pos : Vec2 :=
      match s.savedTaskGamePosition with
      | some saved => ⟨saved.x, saved.y⟩
      | none => ⟨s.canvas.width / 2, s.canvas.height - 100⟩
    { s with isPaused := false, currentTaskChallenge := none,
             taskGamePosition := pos, playerPosition := pos,
             velocity := ⟨0, 0⟩, isJumping := false }
  else s

/-- The synchronous part of `transitionGameMode(targetMode, options,
callback)`: records the previous mode, resets the key flags, preserves
player state for the special-cased pair, sets the new mode (both by
direct assignment and through `setMode`, which therefore re-records the
already-updated mode as previous), and for a `TASK_GAME` target
explicitly unpauses and clears the challenge.  The two `setTimeout`
finalization stages (key resets, post-transition event, callback,
environment setup) run later and are not part of this synchronous
step. -/
def transitionGameModeSync (targetMode : GameMode) (s : GState) : GState :=
  let fromMode := s.mode
  let s := { s with previousMode := some fromMode }
  let s := resetAllKeyStates s
  let s := preservePlayerState fromMode targetMode s
  let s := { s with mode := targetMode, previousMode := some targetMode }
  if targetMode = GameMode.taskGame then
    { s with isPaused := false, currentTaskChallenge := none }
  else s

/-! ## Free-roam 2D mode (twoDSetup.js, taskGameSetup.js enterTaskGame) -/

/-- `enterTaskGame()` (taskGameSetup.js): switches the mode to
`TASK_GAME`, re-centres the task-game position at the window, zeroes
velocity and jump state, loads saved tasks (merged by id, skipping
duplicates) and the token count from storage, seeds a sample task when
the list is empty, clears the bullets and the challenge reference and
faces the player right. -/
def enterTaskGame (s : GState) (storage : Storage) : GState :=
  let s := { s with mode := GameMode.taskGame, previousMode := some GameMode.taskGame }
  let s := { s with
    taskGamePosition := ⟨s.canvas.width / 2, s.canvas.height - 100⟩,
    velocity := ⟨0, 0⟩, isJumping := false }
  let saved := getTasks storage
  let merged :=
    if saved.isEmpty then s.tasks
    else saved.foldl (fun acc savedTask =>
      if acc.any (fun t => t.id = savedTask.id) then acc
      else acc ++ [savedTask]) s.tasks
  let tasks :=
    if merged.isEmpty then
      [({ id := "sample1", text := "Example Task 1", completed := false,
          requiredScore := 300 } : Task)]
    else merged
  { s with tasks := tasks, taskTokens := getTokens storage, bullets := [],
           playerFacingDirection := 1, currentTaskChallenge := none }

/-- First (highest-index) enemy hit by a bullet, searching indices
`k-1, …, 0` — the source iterates `for (let j = enemies.length - 1;
j >= 0; j--)` and breaks on the first overlap. -/
def findHitEnemyDesc (b : Bullet) : Nat → List Enemy → Option Nat
  | 0, _ => none
  | k + 1, es =>
    match es[k]? with
    | none => findHitEnemyDesc b k es
    | some en => if hitsEnemy b en then some k else findHitEnemyDesc b k es

/-- Effects of activating a game app hit by a bullet in `update2D`:
a portal switches to 3D; the `tasks` app enters the task game; the
`training` app enters the training arena (mode switch and previous-mode
record; the manager-side arena population is modelled by `arenaInit`
below); the `taskchallenge` app only starts a dynamic import whose
callback runs later, so it has no synchronous state effect; any other
app shows an alert dialog. -/
def activateAppHit (a : GameApp) (s : GState) (storage : Storage) : GState :=
  if a.kind = "portal" then
    { s with mode := GameMode.mode3D, previousMode := some s.mode }
  else if a.kind = "app" then
    if a.app = "tasks" then enterTaskGame s storage
    else if a.app = "training" then
      { s with previousMode := some s.mode, mode := GameMode.training2D }
    else s
  else s

/-- One iteration of the free-roam bullet loop at index `i` (update2D):
move the bullet, drop it off-screen, test enemies in reverse order
(damage, score, enemy removal), and — guarded by the `bulletRemoved`
flag, so only when no enemy was hit — test the game apps in order and
activate the first one hit, splicing the bullet out in each case. -/
def bullet2DStep (i : Nat) (s : GState) (storage : Storage) : GState :=
  match s.bullets[i]? with
  | none => s
  | some b =>
    let b2 := moveBullet b
    let s := { s with bullets := s.bullets.set i b2 }
    if offscreenB s.canvas b2 then
      { s with bullets := s.bullets.eraseIdx i }
    else
      match findHitEnemyDesc b2 s.enemies.length s.enemies with
      | some j =>
        let en := s.enemies[j]!
        let en2 := { en with health := en.health - 1 }
        let s := { s with enemies := s.enemies.set j en2,
                          bullets := s.bullets.eraseIdx i }
        if en2.health ≤ (0 : Int) then
          let s := if en2.kind = "app" then s else { s with score := s.score + 10 }
          { s with enemies := s.enemies.eraseIdx j }
        else s
      | none =>
        match s.gameApps.find? (fun a => hitsApp b2 a) with
        | none => s
        | some a =>
          let s := { s with bullets := s.bullets.eraseIdx i }
          activateAppHit a s storage

/-- The free-roam bullet loop, indices descending. -/
def bullet2DLoopGo (storage : Storage) : Nat → GState → GState
  | 0, s => s
  | k + 1, s => bullet2DLoopGo storage k (bullet2DStep k s storage)

/-- The body of the platform-collision loop shared verbatim by
`update2D` and the training arena `updatePlayerMovement`: within the
platform's horizontal extent, a landing is detected when the player's
feet crossed the platform top since the previous frame; the player then
snaps onto the platform, the vertical velocity is zeroed and the
airborne flag cleared. -/
def landOnPlatform (st : GState) (p : Platform) : GState :=
  if decide (p.x < st.playerPosition.x + 30) &&
      decide (st.playerPosition.x < p.x + p.width) &&
      decide (p.y ≤ st.playerPosition.y + 50) &&
      decide (st.playerPosition.y + 50 - st.velocity.y ≤ p.y) then
    { st with playerPosition := { st.playerPosition with y := p.y - 50 },
              velocity := { st.velocity with y := 0 }, isJumping := false }
  else st

/-- The bottom-of-screen clamp shared by `update2D` and the arena
movement: a player below height `h` is put back at `h - 50` with the
vertical velocity zeroed and the airborne flag cleared. -/
def bottomRespawn2D (h : ℚ) (s : GState) : GState :=
  if h < s.playerPosition.y then
    { s with playerPosition := { s.playerPosition with y := h - 50 },
             velocity := { s.velocity with y := 0 }, isJumping := false }
  else s

/-- The movement section of `update2D`: horizontal movement, jump,
gravity with the fall-speed clamp at 15, Euler integration of
`playerPosition`, the platform landing loop and the bottom-of-screen
clamp (the source reads `window.innerHeight`, modelled by `s.canvas`). -/
def move2DPhase (s : GState) : GState :=
  let gravity := s.gravity
  let v := { s.velocity with x := 0 }
  let vf : Vec2 × Int :=
    if s.keys.a || s.keys.arrowleft then ({ v with x := -5 }, (-1 : Int))
    else (v, s.playerFacingDirection)
  let vf : Vec2 × Int :=
    if s.keys.d || s.keys.arrowright then ({ vf.1 with x := 5 }, (1 : Int))
    else vf
  let vj : Vec2 × Bool :=
    if (s.keys.w || s.keys.arrowup || s.keys.space) && !s.isJumping then
      ({ vf.1 with y := -15 }, true)
    else (vf.1, s.isJumping)
  let v := { vj.1 with y := vj.1.y + gravity }
  let v := if (15 : ℚ) < v.y then { v with y := 15 } else v
  let pos : Vec2 := ⟨s.playerPosition.x + v.x, s.playerPosition.y + v.y⟩
  let s := { s with velocity := v, playerFacingDirection := vf.2,
                    isJumping := vj.2, playerPosition := pos }
  let s : GState := s.platforms.foldl landOnPlatform s
  bottomRespawn2D s.canvas.height s

/-- `update2D(deltaTime, state)` (twoDSetup.js): the free-roam per-frame
update — the movement section followed by the guarded bullet loop. -/
def update2D (deltaTime : ℚ) (s : GState) (storage : Storage) : GState :=
  if s.isPaused then s
  else
    let s := move2DPhase s
    bullet2DLoopGo storage s.bullets.length s

/-! ## 2D training arena (trainingArena2DSetup.js)

The `TrainingArena2DManager` instance holds the arena-local state plus a
reference to the shared game state; the pair is modelled as one record.
`setTimeout` callbacks (the 1-second target-respawn and the 5-second
exit timeout) are fire-and-forget in the source; they are modelled by a
pending-respawn counter and a recorded exit delay, with the firing of
the exit timeout as a separate step (`fireExitTimeout`).  `initialize`
and `createTarget` draw random positions/velocities; randomness is
externalized by passing the generated entities in as arguments. -/

/-- The quality-dependent constants table `QUALITY_SETTINGS`
(effect-related fields; the entries used by the embedded operations). -/
structure QualitySettings where
  targetCount : Nat
  maxBullets : Nat
  maxEffects : Nat
  effectDuration : Int
  targetSize : ℚ
deriving Repr, DecidableEq

/-- Lookup into `QUALITY_SETTINGS` keyed by the quality string
(`graphicsQuality` is validated to one of the three keys; any other
string would read `undefined` in the source and is mapped to the
`medium` row here). -/
def qualitySettingsFor (q : String) : QualitySettings :=
  if q = "low" then ⟨5, 5, 3, 300, 30⟩
  else if q = "high" then ⟨15, 20, 10, 800, 20⟩
  else ⟨10, 10, 5, 500, 25⟩

/-- The `TrainingArena2DManager` fields together with the shared game
state it mutates. -/
structure Arena2D where
  canvas : Canvas
  qualitySettings : QualitySettings
  gs : GState
  originalPlatforms : List Platform
  originalEnemies : List Enemy
  originalGameApps : List GameApp
  originalPlayerPosition : Vec2
  targets : List Target
  score : Int
  timeRemaining : ℚ
  isActive : Bool
  isEnding : Bool
  isRestoringState : Bool
  endingArenaState : Option (List Platform × List Enemy × List GameApp)
  activeEffects : List Effect
  exitPortal : Option GameApp
  pendingRespawns : Nat
  exitTimeoutMs : Option ℚ
deriving Repr, DecidableEq

/-- The `TrainingArena2DManager` constructor: reads the quality
settings, saves copies of the current platforms, enemies, game apps and
player position for later restoration, and starts inactive with score 0
and the 60-second training time. -/
def mkTrainingArena (canvas : Canvas) (s : GState) : Arena2D :=
  { canvas := canvas
    qualitySettings := qualitySettingsFor
      (if s.graphicsQuality = "" then "medium" else s.graphicsQuality)
    gs := s
    originalPlatforms := s.platforms
    originalEnemies := s.enemies
    originalGameApps := s.gameApps
    originalPlayerPosition := s.playerPosition
    targets := []
    score := 0
    timeRemaining := 60
    isActive := false
    isEnding := false
    isRestoringState := false
    endingArenaState := none
    activeEffects := []
    exitPortal := none
    pendingRespawns := 0
    exitTimeoutMs := none }

/-- The exit portal created by `createExitPortal`. -/
def arenaExitPortal (c : Canvas) : GameApp :=
  { x := c.width - 100, y := 100, width := 60, height := 60,
    kind := "portal", app := "" }

/-- `initialize()`: activates the arena, resets score and timer, clears
the shared entity lists and bullets, installs the floor platform, the
randomly placed training platforms (passed in as `trainingPlatforms`),
the exit portal and the randomly generated targets (passed in as
`targets`), and resets the player to the arena start position. -/
def arenaInit (m : Arena2D) (trainingPlatforms : List Platform)
    (targets : List Target) : Arena2D :=
  let floor : Platform :=
    { x := 0, y := m.canvas.height - 50, width := m.canvas.width, height := 50 }
  { m with isActive := true, score := 0, timeRemaining := 60,
           activeEffects := [], targets := targets,
           exitPortal := some (arenaExitPortal m.canvas),
           gs := { m.gs with
             platforms := floor :: trainingPlatforms,
             enemies := [], gameApps := [arenaExitPortal m.canvas], bullets := [],
             playerPosition := ⟨100, m.canvas.height - 100⟩,
             velocity := ⟨0, 0⟩ } }

/-- `updatePlayerMovement(deltaTime)`: movement and jump as in the other
2D modes, gravity, then the fall-speed clamp at 15 (present in this
variant), Euler integration, platform landing against the previous
frame vertical extent, and the bottom-of-screen clamp. -/
def arenaUpdatePlayerMovement (m : Arena2D) : Arena2D :=
  let s := m.gs
  let gravity := s.gravity
  let v := { s.velocity with x := 0 }
  let vf : Vec2 × Int :=
    if s.keys.a || s.keys.arrowleft then ({ v with x := -5 }, (-1 : Int))
    else (v, s.playerFacingDirection)
  let vf : Vec2 × Int :=
    if s.keys.d || s.keys.arrowright then ({ vf.1 with x := 5 }, (1 : Int))
    else vf
  let vj : Vec2 × Bool :=
    if (s.keys.w || s.keys.arrowup || s.keys.space) && !s.isJumping then
      ({ vf.1 with y := -15 }, true)
    else (vf.1, s.isJumping)
  let v := { vj.1 with y := vj.1.y + gravity }
  let v := if (15 : ℚ) < v.y then { v with y := 15 } else v
  let pos : Vec2 := ⟨s.playerPosition.x + v.x, s.playerPosition.y + v.y⟩
  let s := { s with velocity := v, playerFacingDirection := vf.2,
                    isJumping := vj.2, playerPosition := pos }
  let s : GState := s.platforms.foldl landOnPlatform s
  { m with gs := bottomRespawn2D m.canvas.height s }

/-- One iteration of `updateBullets` at index `i`: move the bullet and
splice it out when off-screen (no collision handling here). -/
def arenaBulletsGo (c : Canvas) : Nat → List Bullet → List Bullet
  | 0, bs => bs
  | k + 1, bs =>
    match bs[k]? with
    | none => arenaBulletsGo c k bs
    | some b =>
      let b2 := moveBullet b
      let bs := bs.set k b2
      let bs := if offscreenB c b2 then bs.eraseIdx k else bs
      arenaBulletsGo c k bs

/-- `updateBullets()`: the bullet-motion loop, indices descending. -/
def arenaUpdateBullets (c : Canvas) (bs : List Bullet) : List Bullet :=
  arenaBulletsGo c bs.length bs

/-- `updateTargets(deltaTime)` for a single target: moving targets
advance by their velocity and bounce off the walls (the floor strip of
height 50 excluded at the bottom), inverting the velocity component and
clamping back into range. -/
def arenaMoveTarget (c : Canvas) (t : Target) : Target :=
  if t.isMoving then
    let t := { t with x := t.x + t.vx, y := t.y + t.vy }
    let t :=
      if decide (t.x ≤ 0) || decide (c.width ≤ t.x + t.width) then
        { t with vx := -t.vx, x := max 0 (min (c.width - t.width) t.x) }
      else t
    if decide (t.y ≤ 0) || decide (c.height - 50 ≤ t.y + t.height) then
      { t with vy := -t.vy, y := max 0 (min (c.height - 50 - t.height) t.y) }
    else t
  else t

/-- `updateEffects()`: effects older than the quality-dependent duration
are removed; the rest have their opacity and size animated from their
age. -/
def arenaUpdateEffects (now : Int) (m : Arena2D) : Arena2D :=
  let dur := m.qualitySettings.effectDuration
  { m with activeEffects := m.activeEffects.filterMap (fun ef =>
      let age := now - ef.createdAt
      if dur < age then none
      else
        let lifePercent : ℚ := (age : ℚ) / (dur : ℚ)
        if ef.kind = "flash" then
          some { ef with opacity := 1 - lifePercent, size := 15 * (1 + lifePercent) }
        else if ef.kind = "hit" then
          some { ef with opacity := 1 - lifePercent, size := 10 * (1 + lifePercent * 2) }
        else some ef) }

/-- `createHitEffect(x, y)`: drops the oldest effect when at the
quality-dependent limit, then appends a hit effect. -/
def arenaCreateHitEffect (x y : ℚ) (now : Int) (m : Arena2D) : Arena2D :=
  let effects :=
    if m.qualitySettings.maxEffects ≤ m.activeEffects.length then
      m.activeEffects.drop 1
    else m.activeEffects
  { m with activeEffects :=
      effects ++ [⟨x, y, 10, 1, "hit", now⟩] }

/-- First (highest-index) target hit by a bullet, searching indices
`k-1, …, 0` — the source iterates `j` from `targets.length - 1`
downwards and breaks on the first overlap. -/
def findHitTargetDesc (b : Bullet) : Nat → List Target → Option Nat
  | 0, _ => none
  | k + 1, ts =>
    match ts[k]? with
    | none => findHitTargetDesc b k ts
    | some t => if hitsTarget b t then some k else findHitTargetDesc b k ts

/-- One iteration of `checkBulletCollisions` at bullet index `i`: on the
first target overlap, add the target points to the score, spawn a hit
effect, remove both the bullet and the target, and schedule a deferred
replacement target (the 1-second `setTimeout`, counted in
`pendingRespawns`). -/
def arenaCollideStep (now : Int) (i : Nat) (m : Arena2D) : Arena2D :=
  match m.gs.bullets[i]? with
  | none => m
  | some b =>
    match findHitTargetDesc b m.targets.length m.targets with
    | none => m
    | some j =>
      let t := m.targets[j]!
      let m := { m with score := m.score + t.points }
      let m := arenaCreateHitEffect (t.x + t.width / 2) (t.y + t.height / 2) now m
      { m with gs := { m.gs with bullets := m.gs.bullets.eraseIdx i },
               targets := m.targets.eraseIdx j,
               pendingRespawns := m.pendingRespawns + 1 }

/-- The `checkBulletCollisions` loop, bullet indices descending. -/
def arenaCollideGo (now : Int) : Nat → Arena2D → Arena2D
  | 0, m => m
  | k + 1, m => arenaCollideGo now k (arenaCollideStep now k m)

/-- `checkExitPortalProximity()`: when the player centre is within 50
pixels of the portal centre and the interact key is down, exit the
arena and clear the key.  (`Math.sqrt(dx*dx + dy*dy) < 50` is expressed
on squares, both sides being nonnegative.) -/
def arenaCheckExitPortal (exitFn : Arena2D → Arena2D) (m : Arena2D) : Arena2D :=
  match m.exitPortal with
  | none => m
  | some portal =>
    let dx := m.gs.playerPosition.x + 20 - (portal.x + portal.width / 2)
    let dy := m.gs.playerPosition.y + 25 - (portal.y + portal.height / 2)
    if decide (dx * dx + dy * dy < 2500) && m.gs.keys.e then
      let m := exitFn m
      { m with gs := { m.gs with keys := { m.gs.keys with e := false } } }
    else m

/-- `cleanup()`: clears bullets, effects and targets and cancels the
pending exit timeout (the key-listener and global-reference teardown is
DOM-side). -/
def arenaCleanup (m : Arena2D) : Arena2D :=
  { m with gs := { m.gs with bullets := [] }, activeEffects := [],
           targets := [], exitTimeoutMs := none }

/-- `exitArena()`: deactivates the arena, cleans up, restores the
platforms, enemies, game apps and player position saved at entry,
zeroes the velocity and jump state, clears the key flags, and returns
to the free-roam 2D mode. -/
def exitArena (m : Arena2D) : Arena2D :=
  let m := { m with isActive := false }
  let m := arenaCleanup m
  { m with gs := { m.gs with
      platforms := m.originalPlatforms,
      enemies := m.originalEnemies,
      gameApps := m.originalGameApps,
      playerPosition := ⟨m.originalPlayerPosition.x, m.originalPlayerPosition.y⟩,
      velocity := ⟨0, 0⟩, isJumping := false, keys := Keys.allFalse,
      mode := GameMode.mode2D } }

/-- `showFinalScore()`: on first call, snapshots the arena entity lists
and restores the pre-challenge platforms, enemies, game apps and player
position into the shared state so the player can move during the score
overlay. -/
def showFinalScore (m : Arena2D) : Arena2D :=
  if m.isRestoringState then m
  else
    { m with isRestoringState := true,
             endingArenaState := some (m.gs.platforms, m.gs.enemies, m.gs.gameApps),
             gs := { m.gs with
               platforms := m.originalPlatforms,
               enemies := m.originalEnemies,
               gameApps := m.originalGameApps,
               playerPosition := ⟨m.originalPlayerPosition.x, m.originalPlayerPosition.y⟩,
               velocity := ⟨0, 0⟩, isJumping := false } }

/-- `endChallenge()`: enters the ending sub-state (rendering continues,
entity updates stop), shows the final score overlay, and schedules the
fixed 5-second exit timeout. -/
def endChallenge (m : Arena2D) : Arena2D :=
  let m := { m with isEnding := true }
  let m := showFinalScore m
  { m with exitTimeoutMs := some 5000 }

/-- The firing of the exit timeout scheduled by `endChallenge`. -/
def fireExitTimeout (m : Arena2D) : Arena2D :=
  exitArena m

/-- The `this.updateBullets()` call: replaces the shared bullet list by
the moved-and-filtered one. -/
def arenaBulletsStage (m : Arena2D) : Arena2D :=
  { m with gs := { m.gs with bullets := arenaUpdateBullets m.canvas m.gs.bullets } }

/-- The `this.updateTargets(deltaTime)` call: every target moves and
bounces. -/
def arenaTargetsStage (m : Arena2D) : Arena2D :=
  { m with targets := m.targets.map (arenaMoveTarget m.canvas) }

/-- The `this.checkBulletCollisions()` call: the descending collision
loop over the current bullets. -/
def arenaCollideStage (now : Int) (m : Arena2D) : Arena2D :=
  arenaCollideGo now m.gs.bullets.length m

/-- The entity-update pipeline run by `update` on a live (not ending)
frame, in source order: player movement, bullet motion, target motion,
effect ageing, bullet/target collisions, and the exit-portal check. -/
def arenaPhysicsPhases (now : Int) (m : Arena2D) : Arena2D :=
  arenaCheckExitPortal exitArena
    (arenaCollideStage now
      (arenaUpdateEffects now
        (arenaTargetsStage (arenaBulletsStage (arenaUpdatePlayerMovement m)))))

/-- `update(deltaTime)`: returns unchanged when inactive; in the ending
sub-state only rendering continues; otherwise decrements the timer by
`deltaTime / 1000` seconds, ends the challenge when it reaches zero,
and else runs the entity-update pipeline. -/
def arenaUpdate (deltaTime : ℚ) (now : Int) (m : Arena2D) : Arena2D :=
  if !m.isActive then m
  else if m.isEnding then m
  else
    let m := { m with timeRemaining := m.timeRemaining - deltaTime / 1000 }
    if m.timeRemaining ≤ 0 then endChallenge m
    else arenaPhysicsPhases now m

/-- Modelled from the spec: `taskArena2DSetup.js` (the task-challenge
arena variant entered through `enterTaskArena2D`) is not among the
sources; per spec §4.3 its `exitArena` restores the pre-challenge
entity collections and player position saved at entry and invokes the
caller-supplied completion callback with the achieved score.  The
restoration is the in-source `exitArena` above; the callback invocation
is modelled by returning the score passed to it. -/
def taskArenaExit (m : Arena2D) : Arena2D × Int :=
  (exitArena m, m.score)

/-! ## Sample states used by the witnesses -/

/-- A canvas at a typical window size. -/
def sampleCanvas : Canvas := ⟨800, 600⟩

/-- A plain free-roam game state. -/
def sampleState : GState :=
  { mode := GameMode.mode2D, previousMode := none, keys := Keys.allFalse,
    playerPosition := ⟨100, 400⟩, taskGamePosition := ⟨400, 500⟩,
    savedTaskGamePosition := none, velocity := ⟨0, 0⟩, isJumping := false,
    playerFacingDirection := 1, bullets := [], tasks := [], taskObjects := [],
    taskGamePlatforms := [], taskGameButtons := [], platforms := [],
    enemies := [], gameApps := [], taskTokens := 0,
    currentTaskChallenge := none, isPaused := false, graphicsQuality := "low",
    gravity := 1 / 2, score := 0, lastShootTime := 0, shootCooldown := 300,
    canvas := sampleCanvas }

/-- A task-game state with one uncompleted task under challenge, used by
the C1 witness. -/
def c1State : GState :=
  { sampleState with
    mode := GameMode.taskArena2D,
    tasks := [⟨"t1", "demo task", false, 300⟩],
    taskObjects := [⟨195, 390, 60, 60, "demo task", false, true, 300, 0⟩],
    currentTaskChallenge := some ⟨0, 0, 300⟩ }

/-- The task lists used by the C3 witness: three tasks, the middle one
archived. -/
def c3Tasks : List Task :=
  [⟨"a", "task a", true, 300⟩, ⟨"b", "task b", true, 300⟩, ⟨"c", "task c", false, 400⟩]

/-- The middle task object of the C3 witness. -/
def c3Obj1 : TaskObj := ⟨520, 290, 60, 60, "task b", true, false, 300, 1⟩

/-- The task objects used by the C3 witness, with stored indices 0,1,2. -/
def c3Objs : List TaskObj :=
  [⟨195, 390, 60, 60, "task a", true, false, 300, 0⟩, c3Obj1,
   ⟨820, 290, 60, 60, "task c", false, true, 400, 2⟩]

/-- Whether a mode is the challenge-arena mode that carries a
`currentTaskChallenge` (the `2D_TASK_ARENA` mode entered from a locked
task). -/
def isChallengeArenaMode (m : GameMode) : Bool :=
  m == GameMode.taskArena2D

/-- A task-game state in which a bullet is about to hit the (locked)
task object of the single uncompleted task; geometry as produced by
`setupTaskGameEnvironment` on an 800×600 canvas. -/
def c8State : GState :=
  { sampleState with
    mode := GameMode.taskGame,
    tasks := [⟨"t1", "demo task", false, 300⟩],
    taskObjects := [⟨195, 390, 60, 60, "demo task", false, true, 300, 0⟩],
    taskGamePlatforms :=
      [⟨0, 550, 800, 50⟩, ⟨100, 450, 250, 20⟩],
    taskGameButtons :=
      [⟨50, 50, 120, 50, "new_task"⟩, ⟨650, 50, 120, 50, "exit"⟩],
    taskGamePosition := ⟨400, 500⟩, playerPosition := ⟨400, 500⟩,
    bullets := [⟨190, 425, 10, -5, 5⟩] }

/-- A task-game state with a pending challenge, used by the C8 witness. -/
def c8PendingState : GState :=
  { sampleState with
    mode := GameMode.taskGame,
    tasks := [⟨"t1", "demo task", false, 300⟩],
    currentTaskChallenge := some ⟨0, 0, 300⟩ }

/-- A storage with both cells missing. -/
def emptyStorage : Storage := ⟨StoredCell.missing, StoredCell.missing⟩

/-- The free-roam state of the C6 scenario: player at `x = 100` with the
`d` key held, standard platforms for an 800×600 canvas, no bullets. -/
def c6State2D : GState :=
  { sampleState with
    playerPosition := ⟨100, 400⟩,
    playerFacingDirection := -1,
    keys := { Keys.allFalse with d := true },
    platforms :=
      [⟨0, 550, 800, 50⟩, ⟨200, 450, 200, 20⟩, ⟨500, 350, 200, 20⟩,
       ⟨800, 250, 200, 20⟩, ⟨300, 150, 400, 20⟩] }

/-- The task-game state of the C6 scenario: player at `x = 100` with the
`d` key held, task-game platforms for one task on an 800×600 canvas. -/
def c6TaskState : GState :=
  { sampleState with
    mode := GameMode.taskGame,
    taskGamePosition := ⟨100, 400⟩,
    playerPosition := ⟨100, 400⟩,
    playerFacingDirection := -1,
    keys := { Keys.allFalse with d := true },
    taskGamePlatforms := [⟨0, 550, 800, 50⟩, ⟨100, 450, 250, 20⟩] }

/-- The free-fall state family used for C7: the player in free air (no
platforms, no bullets, no keys) falling at vertical speed `vy`. -/
def c7FreeFall (vy : ℚ) : GState :=
  { sampleState with
    velocity := ⟨0, vy⟩,
    playerPosition := ⟨100, 0⟩,
    taskGamePosition := ⟨100, 0⟩ }

/-- The training-arena manager family used for C7: an active arena whose
shared state is `c7FreeFall vy`. -/
def c7Arena (vy : ℚ) : Arena2D :=
  { mkTrainingArena sampleCanvas (c7FreeFall vy) with isActive := true }

/-- The small canvas of the C4 counterexample (a 300×250 window, at
which `setupTaskGameEnvironment` places the single task object across
the Exit button). -/
def c4Canvas : Canvas := ⟨300, 250⟩

/-- The C4 counterexample state: one already-completed task whose task
object (at 195..255 × 40..100, per the setup formulas for a 300×250
canvas) overlaps the Exit button (at 150..270 × 50..100); bullet 0 is
about to land inside both, bullet 1 flies harmlessly in open space. -/
def c4State : GState :=
  { sampleState with
    mode := GameMode.taskGame,
    canvas := c4Canvas,
    tasks := [⟨"t1", "task a", true, 300⟩],
    taskObjects := [⟨195, 40, 60, 60, "task a", true, false, 300, 0⟩],
    taskGamePlatforms := [⟨0, 200, 300, 50⟩, ⟨100, 100, 250, 20⟩],
    taskGameButtons := [⟨50, 50, 120, 50, "new_task"⟩, ⟨150, 50, 120, 50, "exit"⟩],
    taskGamePosition := ⟨130, 150⟩,
    playerPosition := ⟨130, 150⟩,
    isJumping := true,
    bullets := [⟨190, 65, 10, -5, 5⟩, ⟨20, 195, 10, -5, 5⟩] }

/-- A task-game state whose bullets hit nothing, used by the C4
witness: the first bullet stays in bounds, the second leaves the
canvas. -/
def c4CleanState : GState :=
  { sampleState with
    mode := GameMode.taskGame,
    bullets := [⟨100, 100, 10, -5, 5⟩, ⟨795, 100, 10, 0, 5⟩] }

/-- The freshly initialized training arena used by the C5 witness. -/
def c5Arena : Arena2D :=
  arenaInit (mkTrainingArena sampleCanvas sampleState) [] []

/-! ## Claims -/

/-- Claim C10: `setGraphicsQuality(q)` returns true and sets
`graphicsQuality` to `q` exactly when `q` is one of `low`, `medium`,
`high`; for any other argument it returns false and leaves
`graphicsQuality` unchanged. -/
theorem c10_setGraphicsQuality (q : String) (s : GState) :
    (["low", "medium", "high"].contains q = true →
      setGraphicsQuality q s = (true, { s with graphicsQuality := q })) ∧
    (["low", "medium", "high"].contains q = false →
      setGraphicsQuality q s = (false, s)) := by
  constructor
  · intro h
    simp only [setGraphicsQuality]
    rw [if_pos h]
  · intro h
    simp only [setGraphicsQuality]
    rw [if_neg (by rw [h]; simp)]

/-- Witness for C10 at the inputs `high` (accepted) and `ultra`
(rejected). -/
theorem c10_setGraphicsQuality_witness :
    setGraphicsQuality "high" sampleState =
      (true, { sampleState with graphicsQuality := "high" }) ∧
    setGraphicsQuality "ultra" sampleState = (false, sampleState) :=
  ⟨(c10_setGraphicsQuality "high" sampleState).1 (by decide),
   (c10_setGraphicsQuality "ultra" sampleState).2 (by decide)⟩

/-- Claim C2: `saveTasks` followed by `getTasks` reproduces the saved
array exactly (order and fields preserved); re-saving a freshly loaded
list changes nothing observable on the next load; and a missing or
corrupt stored entry makes `getTasks` return `[]` and `getTokens`
return 0. -/
theorem c2_storage_roundTrip :
    (∀ (tasks : List Task) (st : Storage),
      getTasks (saveTasks tasks st).2 = tasks) ∧
    (∀ st : Storage, getTasks (saveTasks (getTasks st) st).2 = getTasks st) ∧
    (∀ tc, getTasks ⟨StoredCell.missing, tc⟩ = []) ∧
    (∀ tc, getTasks ⟨StoredCell.corrupt, tc⟩ = []) ∧
    (∀ ts, getTokens ⟨ts, StoredCell.missing⟩ = 0) ∧
    (∀ ts, getTokens ⟨ts, StoredCell.corrupt⟩ = 0) :=
  ⟨fun _ _ => rfl, fun _ => rfl, fun _ => rfl, fun _ => rfl,
   fun _ => rfl, fun _ => rfl⟩

/-- Claim C1: when a task challenge completes with score `s` against
required score `r`, then if `r ≤ s` the originating task's `completed`
flag becomes true and `taskTokens` grows by exactly one, and if `s < r`
the flag stays false and `taskTokens` is unchanged. -/
theorem c1_taskChallengeComplete (scoreAchieved : Int) (s : GState)
    (ch : Challenge)
    (hch : s.currentTaskChallenge = some ch)
    (hpos : 0 ≤ ch.taskIdx)
    (hfalse : s.tasks[ch.taskIdx.toNat]?.map Task.completed = some false) :
    (ch.requiredScore ≤ scoreAchieved →
      (onTaskChallengeComplete scoreAchieved s).tasks[ch.taskIdx.toNat]?.map
          Task.completed = some true ∧
      (onTaskChallengeComplete scoreAchieved s).taskTokens = s.taskTokens + 1) ∧
    (scoreAchieved < ch.requiredScore →
      (onTaskChallengeComplete scoreAchieved s).tasks[ch.taskIdx.toNat]?.map
          Task.completed = some false ∧
      (onTaskChallengeComplete scoreAchieved s).taskTokens = s.taskTokens) := by
  obtain ⟨t, hget, hcomp⟩ :
      ∃ t, s.tasks[ch.taskIdx.toNat]? = some t ∧ t.completed = false := by
    cases hg : s.tasks[ch.taskIdx.toNat]? with
    | none => rw [hg] at hfalse; simp at hfalse
    | some t => rw [hg] at hfalse; exact ⟨t, rfl, by simpa using hfalse⟩
  obtain ⟨hlt, -⟩ := List.getElem?_eq_some.mp hget
  constructor
  · intro hscore
    simp only [onTaskChallengeComplete, hch, taskAt, if_pos hpos, if_pos hscore, hget]
    refine ⟨?_, trivial⟩
    rw [List.getElem?_set_self hlt]
    rfl
  · intro hscore
    simp only [onTaskChallengeComplete, hch, if_neg (not_le.mpr hscore)]
    exact ⟨hfalse, trivial⟩

/-- Witness for C1: at score 350 against required 300 the task completes
and one token is granted; at score 100 nothing changes. -/
theorem c1_taskChallengeComplete_witness :
    ((onTaskChallengeComplete 350 c1State).tasks[(0 : Nat)]?.map Task.completed =
        some true ∧
      (onTaskChallengeComplete 350 c1State).taskTokens = c1State.taskTokens + 1) ∧
    ((onTaskChallengeComplete 100 c1State).tasks[(0 : Nat)]?.map Task.completed =
        some false ∧
      (onTaskChallengeComplete 100 c1State).taskTokens = c1State.taskTokens) :=
  ⟨(c1_taskChallengeComplete 350 c1State ⟨0, 0, 300⟩ rfl (by decide) rfl).1
      (by decide),
   (c1_taskChallengeComplete 100 c1State ⟨0, 0, 300⟩ rfl (by decide) rfl).2
      (by decide)⟩

/-- Helper: `decFrom` preserves the list length. -/
theorem decFrom_length (l : List TaskObj) : ∀ j, (decFrom j l).length = l.length := by
  induction l with
  | nil => intro j; cases j <;> rfl
  | cons o rest ih =>
    intro j
    cases j with
    | zero => simpa [decFrom] using ih 0
    | succ j => simpa [decFrom] using ih j

/-- Helper: entry `k` of `decFrom j l` is entry `k` of `l`, with the
stored index decremented exactly when `j ≤ k`. -/
theorem decFrom_getElem? (l : List TaskObj) : ∀ j k,
    (decFrom j l)[k]? =
      (l[k]?).map (fun o => if j ≤ k then { o with index := o.index - 1 } else o) := by
  induction l with
  | nil => intro j k; cases j <;> rfl
  | cons o rest ih =>
    intro j k
    cases j with
    | zero =>
      cases k with
      | zero => simp [decFrom]
      | succ k => simpa [decFrom] using ih 0 k
    | succ j =>
      cases k with
      | zero => simp [decFrom]
      | succ k => simpa [decFrom, Nat.succ_le_succ_iff] using ih j k

/-- Claim C3: archiving an already-completed task hit at task-object
position `j` removes exactly one entry from the task list (the one at
stored index `taskObj.index`, later entries shifting down by one) and
exactly one entry from the task-object list, and every task object at a
higher original position keeps its data with the stored index field
decremented by exactly one, while lower positions are untouched. -/
theorem c3_archiveReindex (tasks : List Task) (objs : List TaskObj) (j : Nat)
    (o : TaskObj)
    (hj : objs[j]? = some o)
    (hpos : 0 ≤ o.index)
    (hidx : o.index.toNat < tasks.length) :
    (spliceOneAt tasks o.index).length = tasks.length - 1 ∧
    (∀ k, k < o.index.toNat → (spliceOneAt tasks o.index)[k]? = tasks[k]?) ∧
    (∀ k, o.index.toNat ≤ k → (spliceOneAt tasks o.index)[k]? = tasks[k + 1]?) ∧
    (decFrom j (objs.eraseIdx j)).length = objs.length - 1 ∧
    (∀ k, k < j → (decFrom j (objs.eraseIdx j))[k]? = objs[k]?) ∧
    (∀ k, j < k → k < objs.length →
      (decFrom j (objs.eraseIdx j))[k - 1]? =
        (objs[k]?).map (fun ob => { ob with index := ob.index - 1 })) := by
  obtain ⟨hjlt, -⟩ := List.getElem?_eq_some.mp hj
  have hsplice : spliceOneAt tasks o.index = tasks.eraseIdx o.index.toNat := by
    simp [spliceOneAt, hpos]
  refine ⟨?_, ?_, ?_, ?_, ?_, ?_⟩
  · rw [hsplice]
    exact List.length_eraseIdx_of_lt hidx
  · intro k hk
    rw [hsplice]
    exact List.getElem?_eraseIdx_of_lt tasks o.index.toNat k hk
  · intro k hk
    rw [hsplice]
    exact List.getElem?_eraseIdx_of_ge tasks o.index.toNat k hk
  · rw [decFrom_length, List.length_eraseIdx_of_lt hjlt]
  · intro k hk
    rw [decFrom_getElem?, List.getElem?_eraseIdx_of_lt objs j k hk]
    cases hg : objs[k]? with
    | none => simp
    | some ob => simp [Nat.not_le.mpr hk]
  · intro k hk hklen
    have hk1 : j ≤ k - 1 := by omega
    have hksucc : k - 1 + 1 = k := by omega
    rw [decFrom_getElem?, List.getElem?_eraseIdx_of_ge objs j (k - 1) hk1, hksucc]
    cases hg : objs[k]? with
    | none => simp
    | some ob => simp [hk1]

/-- Witness for C3 at position `j = 1` of the three-element lists. -/
theorem c3_archiveReindex_witness :
    (spliceOneAt c3Tasks c3Obj1.index).length = c3Tasks.length - 1 ∧
    (∀ k, k < c3Obj1.index.toNat →
      (spliceOneAt c3Tasks c3Obj1.index)[k]? = c3Tasks[k]?) ∧
    (∀ k, c3Obj1.index.toNat ≤ k →
      (spliceOneAt c3Tasks c3Obj1.index)[k]? = c3Tasks[k + 1]?) ∧
    (decFrom 1 (c3Objs.eraseIdx 1)).length = c3Objs.length - 1 ∧
    (∀ k, k < 1 → (decFrom 1 (c3Objs.eraseIdx 1))[k]? = c3Objs[k]?) ∧
    (∀ k, 1 < k → k < c3Objs.length →
      (decFrom 1 (c3Objs.eraseIdx 1))[k - 1]? =
        (c3Objs[k]?).map (fun ob => { ob with index := ob.index - 1 })) :=
  c3_archiveReindex c3Tasks c3Objs 1 c3Obj1 rfl (by decide) (by decide)

/-- Claim C9: the arena constructor saves the entity collections and
player position at entry; `exitArena` restores exactly those saved
values into the shared state and leaves the saved copies intact; and
the task-challenge arena exit (modelled from the spec, its source file
being absent) hands the achieved score to the completion callback while
performing the same restoration. -/
theorem c9_exitRestores :
    (∀ (c : Canvas) (s : GState),
      (mkTrainingArena c s).originalPlatforms = s.platforms ∧
      (mkTrainingArena c s).originalEnemies = s.enemies ∧
      (mkTrainingArena c s).originalGameApps = s.gameApps ∧
      (mkTrainingArena c s).originalPlayerPosition = s.playerPosition) ∧
    (∀ m : Arena2D,
      (exitArena m).gs.platforms = m.originalPlatforms ∧
      (exitArena m).gs.enemies = m.originalEnemies ∧
      (exitArena m).gs.gameApps = m.originalGameApps ∧
      (exitArena m).gs.playerPosition = m.originalPlayerPosition ∧
      (exitArena m).originalPlatforms = m.originalPlatforms ∧
      (exitArena m).originalEnemies = m.originalEnemies ∧
      (exitArena m).originalGameApps = m.originalGameApps ∧
      (exitArena m).originalPlayerPosition = m.originalPlayerPosition) ∧
    (∀ m : Arena2D,
      (taskArenaExit m).2 = m.score ∧
      (taskArenaExit m).1.gs.platforms = m.originalPlatforms ∧
      (taskArenaExit m).1.gs.enemies = m.originalEnemies ∧
      (taskArenaExit m).1.gs.gameApps = m.originalGameApps ∧
      (taskArenaExit m).1.gs.playerPosition = m.originalPlayerPosition) :=
  ⟨fun _ _ => ⟨rfl, rfl, rfl, rfl⟩,
   fun _ => ⟨rfl, rfl, rfl, rfl, rfl, rfl, rfl, rfl⟩,
   fun _ => ⟨rfl, rfl, rfl, rfl, rfl⟩⟩

/-- Counterexample to C8 as stated: after the update in which the bullet
hits the locked task object, `currentTaskChallenge` is defined while the
mode is still `TASK_GAME` (the transition to the arena is deferred), so
`currentTaskChallenge` defined does not imply a challenge-arena mode. -/
theorem c8_counterexample :
    (updateTaskGame 16 c8State sampleCanvas 0).currentTaskChallenge.isSome = true ∧
    isChallengeArenaMode (updateTaskGame 16 c8State sampleCanvas 0).mode = false := by
  norm_num [updateTaskGame, taskGameMovePhase, taskGameLandOn, taskGameBounds, bulletLoopGo,
    bulletStep, activateTaskArenaChallengeSync, moveBullet, offscreenB,
    hitsTaskObj, hitsButton, hitsRect, isChallengeArenaMode,
    c8State, sampleState, sampleCanvas, Keys.allFalse, List.findIdx?]
  decide

/-- Claim C8 as amended: `currentTaskChallenge` can be defined outside a
challenge-arena mode only in the window between a locked-task hit and
the deferred arena transition; what the transition layer does guarantee
is that transitioning into `TASK_GAME` mode always clears
`currentTaskChallenge`, and that the `TASK_GAME` update loop does not
run at all while `currentTaskChallenge` is defined. -/
theorem c8_challengeLifecycle :
    (∀ s : GState,
      (transitionGameModeSync GameMode.taskGame s).currentTaskChallenge = none ∧
      (transitionGameModeSync GameMode.taskGame s).mode = GameMode.taskGame) ∧
    (∀ (dt : ℚ) (s : GState) (c : Canvas) (now : Int),
      s.currentTaskChallenge.isSome = true → updateTaskGame dt s c now = s) := by
  constructor
  · intro s
    exact ⟨rfl, rfl⟩
  · intro dt s c now h
    simp [updateTaskGame, h]

/-- Witness for the amended C8: the task-game update is the identity on
a state whose challenge is pending. -/
theorem c8_challengeLifecycle_witness :
    updateTaskGame 16 c8PendingState sampleCanvas 0 = c8PendingState :=
  c8_challengeLifecycle.2 16 c8PendingState sampleCanvas 0 rfl

/-- Claim C6: with the player at `x = 100`, the `d` key held and move
speed 5, one update tick yields horizontal velocity 5, new `x = 105`
and facing direction 1 — in the free-roam update and in the task-game
update alike. -/
theorem c6_moveRightScenario :
    (update2D 16 c6State2D emptyStorage).velocity.x = 5 ∧
    (update2D 16 c6State2D emptyStorage).playerPosition.x = 105 ∧
    (update2D 16 c6State2D emptyStorage).playerFacingDirection = 1 ∧
    (updateTaskGame 16 c6TaskState sampleCanvas 0).velocity.x = 5 ∧
    (updateTaskGame 16 c6TaskState sampleCanvas 0).taskGamePosition.x = 105 ∧
    (updateTaskGame 16 c6TaskState sampleCanvas 0).playerFacingDirection = 1 := by
  norm_num [update2D, move2DPhase, landOnPlatform, bottomRespawn2D, updateTaskGame,
    taskGameMovePhase, taskGameLandOn, taskGameBounds, bullet2DLoopGo, bulletLoopGo,
    c6State2D, c6TaskState, sampleState, sampleCanvas, Keys.allFalse, emptyStorage]

/-- Counterexample to C7 as stated: the claim says the arena update
variant lacks the maximum-fall-speed clamp, so falling at speed 100 it
would leave `velocity.y = 100 + gravity`; in fact the arena update
clamps it to 15. -/
theorem c7_counterexample :
    (arenaUpdate 16 0 (c7Arena 100)).gs.velocity.y = 15 ∧
    (15 : ℚ) ≠ 100 + 1 / 2 := by
  norm_num [arenaUpdate, arenaPhysicsPhases, arenaBulletsStage, arenaTargetsStage,
    arenaCollideStage, arenaUpdatePlayerMovement, bottomRespawn2D, arenaUpdateBullets,
    arenaBulletsGo, arenaUpdateEffects, arenaCollideGo, arenaCheckExitPortal,
    endChallenge, showFinalScore, c7Arena, mkTrainingArena, qualitySettingsFor,
    c7FreeFall, sampleState, sampleCanvas, Keys.allFalse]

/-- Claim C7 as amended: every 2D-platformer update adds the fixed
gravity constant to the vertical velocity each frame; the maximum
fall-speed clamp at 15 is present in the free-roam variant and in the
training-arena variant; only the task-game variant lacks it. -/
theorem c7_gravityClamp (vy : ℚ) (hvy : vy ≤ 500) :
    (update2D 16 (c7FreeFall vy) emptyStorage).velocity.y = min (vy + 1 / 2) 15 ∧
    (arenaUpdate 16 0 (c7Arena vy)).gs.velocity.y = min (vy + 1 / 2) 15 ∧
    (updateTaskGame 16 (c7FreeFall vy) sampleCanvas 0).velocity.y = vy + 1 / 2 := by
  rcases le_or_lt (vy + 1 / 2) 15 with h | h
  · rw [min_eq_left h]
    refine ⟨?_, ?_, ?_⟩
    · norm_num [update2D, move2DPhase, bottomRespawn2D, c7FreeFall, sampleState, sampleCanvas,
        Keys.allFalse, emptyStorage, if_neg (not_lt.mpr h)]
      norm_num [bullet2DLoopGo, if_neg (show ¬((600 : ℚ) < vy + 1 / 2) by linarith)]
    · norm_num [arenaUpdate, arenaPhysicsPhases, arenaBulletsStage, arenaTargetsStage,
    arenaCollideStage, arenaUpdatePlayerMovement, bottomRespawn2D, arenaUpdateBullets,
        arenaBulletsGo, arenaUpdateEffects, arenaCollideGo, arenaCheckExitPortal,
        c7Arena, mkTrainingArena, qualitySettingsFor, c7FreeFall, sampleState,
        sampleCanvas, Keys.allFalse, if_neg (not_lt.mpr h)]
      norm_num [arenaBulletsGo, arenaCollideGo, arenaCheckExitPortal,
        if_neg (show ¬((600 : ℚ) < vy + 1 / 2) by linarith)]
    · norm_num [updateTaskGame, taskGameMovePhase, taskGameBounds, c7FreeFall, sampleState,
        sampleCanvas, Keys.allFalse]
      norm_num [bulletLoopGo, if_neg (show ¬((600 : ℚ) < vy + 1 / 2) by linarith)]
  · rw [min_eq_right (le_of_lt h)]
    refine ⟨?_, ?_, ?_⟩
    · norm_num [update2D, move2DPhase, bottomRespawn2D, bullet2DLoopGo, c7FreeFall, sampleState,
        sampleCanvas, Keys.allFalse, emptyStorage, if_pos h]
    · norm_num [arenaUpdate, arenaPhysicsPhases, arenaBulletsStage, arenaTargetsStage,
    arenaCollideStage, arenaUpdatePlayerMovement, bottomRespawn2D, arenaUpdateBullets,
        arenaBulletsGo, arenaUpdateEffects, arenaCollideGo, arenaCheckExitPortal,
        c7Arena, mkTrainingArena, qualitySettingsFor, c7FreeFall, sampleState,
        sampleCanvas, Keys.allFalse, if_pos h]
    · norm_num [updateTaskGame, taskGameMovePhase, taskGameBounds, c7FreeFall, sampleState,
        sampleCanvas, Keys.allFalse]
      norm_num [bulletLoopGo, if_neg (show ¬((600 : ℚ) < vy + 1 / 2) by linarith)]

/-- Witness for the amended C7 at fall speed 100: the free-roam and
arena variants clamp to 15, the task-game variant reaches 100.5. -/
theorem c7_gravityClamp_witness :
    (update2D 16 (c7FreeFall 100) emptyStorage).velocity.y = min (100 + 1 / 2) 15 ∧
    (arenaUpdate 16 0 (c7Arena 100)).gs.velocity.y = min (100 + 1 / 2) 15 ∧
    (updateTaskGame 16 (c7FreeFall 100) sampleCanvas 0).velocity.y = 100 + 1 / 2 :=
  c7_gravityClamp 100 (by norm_num)

/-- Helper: a platform-landing step never touches the key flags. -/
theorem landOnPlatform_keys (st : GState) (p : Platform) :
    (landOnPlatform st p).keys = st.keys := by
  unfold landOnPlatform
  split <;> rfl

/-- Helper: the platform-landing loop never touches the key flags. -/
theorem foldl_landOnPlatform_keys (l : List Platform) : ∀ s : GState,
    (l.foldl landOnPlatform s).keys = s.keys := by
  induction l with
  | nil => intro s; rfl
  | cons p pl ih => intro s; rw [List.foldl_cons, ih, landOnPlatform_keys]

/-- Helper: the bottom-of-screen clamp never touches the key flags. -/
theorem bottomRespawn2D_keys (h : ℚ) (s : GState) :
    (bottomRespawn2D h s).keys = s.keys := by
  unfold bottomRespawn2D
  split <;> rfl

/-- Helper: the arena player-movement step leaves the timer, the
activity flags, the exit timeout and the key flags unchanged. -/
theorem arenaMove_pres (m : Arena2D) :
    (arenaUpdatePlayerMovement m).timeRemaining = m.timeRemaining ∧
    (arenaUpdatePlayerMovement m).isActive = m.isActive ∧
    (arenaUpdatePlayerMovement m).isEnding = m.isEnding ∧
    (arenaUpdatePlayerMovement m).exitTimeoutMs = m.exitTimeoutMs ∧
    (arenaUpdatePlayerMovement m).gs.keys = m.gs.keys := by
  refine ⟨rfl, rfl, rfl, rfl, ?_⟩
  unfold arenaUpdatePlayerMovement
  dsimp only
  rw [bottomRespawn2D_keys, foldl_landOnPlatform_keys]

/-- Helper: one collision-loop step leaves the timer, the activity
flags, the exit timeout and the key flags unchanged. -/
theorem arenaCollideStep_pres (now : Int) (k : Nat) (m : Arena2D) :
    (arenaCollideStep now k m).timeRemaining = m.timeRemaining ∧
    (arenaCollideStep now k m).isActive = m.isActive ∧
    (arenaCollideStep now k m).isEnding = m.isEnding ∧
    (arenaCollideStep now k m).exitTimeoutMs = m.exitTimeoutMs ∧
    (arenaCollideStep now k m).gs.keys = m.gs.keys := by
  unfold arenaCollideStep
  cases hb : m.gs.bullets[k]? with
  | none => simp
  | some b =>
    cases ht : findHitTargetDesc b m.targets.length m.targets with
    | none => simp [ht]
    | some j => simp [ht, arenaCreateHitEffect]

/-- Helper: the collision loop leaves the timer, the activity flags,
the exit timeout and the key flags unchanged. -/
theorem arenaCollideGo_pres (now : Int) : ∀ (k : Nat) (m : Arena2D),
    (arenaCollideGo now k m).timeRemaining = m.timeRemaining ∧
    (arenaCollideGo now k m).isActive = m.isActive ∧
    (arenaCollideGo now k m).isEnding = m.isEnding ∧
    (arenaCollideGo now k m).exitTimeoutMs = m.exitTimeoutMs ∧
    (arenaCollideGo now k m).gs.keys = m.gs.keys := by
  intro k
  induction k with
  | zero => intro m; exact ⟨rfl, rfl, rfl, rfl, rfl⟩
  | succ k ih =>
    intro m
    obtain ⟨a1, a2, a3, a4, a5⟩ := arenaCollideStep_pres now k m
    obtain ⟨b1, b2, b3, b4, b5⟩ := ih (arenaCollideStep now k m)
    exact ⟨b1.trans a1, b2.trans a2, b3.trans a3, b4.trans a4, b5.trans a5⟩

/-- Helper: with the interact key up, the exit-portal check does
nothing. -/
theorem arenaExitPortal_noE (f : Arena2D → Arena2D) (m : Arena2D)
    (h : m.gs.keys.e = false) : arenaCheckExitPortal f m = m := by
  unfold arenaCheckExitPortal
  cases hp : m.exitPortal with
  | none => rfl
  | some portal => simp [h]

/-- Helper: a live physics frame leaves the timer, the activity flags
and the exit timeout unchanged and keeps the interact key up. -/
theorem arenaPhases_pres (now : Int) (m : Arena2D) (hk : m.gs.keys.e = false) :
    (arenaPhysicsPhases now m).timeRemaining = m.timeRemaining ∧
    (arenaPhysicsPhases now m).isActive = m.isActive ∧
    (arenaPhysicsPhases now m).isEnding = m.isEnding ∧
    (arenaPhysicsPhases now m).exitTimeoutMs = m.exitTimeoutMs ∧
    (arenaPhysicsPhases now m).gs.keys.e = false := by
  obtain ⟨p1, p2, p3, p4, p5⟩ := arenaMove_pres m
  set m4 : Arena2D :=
    arenaUpdateEffects now
      (arenaTargetsStage (arenaBulletsStage (arenaUpdatePlayerMovement m)))
    with hm4
  have h4keys : m4.gs.keys = m.gs.keys := by
    rw [hm4]
    show (arenaUpdatePlayerMovement m).gs.keys = m.gs.keys
    exact p5
  obtain ⟨c1, c2, c3, c4, c5⟩ :=
    arenaCollideGo_pres now m4.gs.bullets.length m4
  have hkeyse : (arenaCollideStage now m4).gs.keys.e = false := by
    show (arenaCollideGo now m4.gs.bullets.length m4).gs.keys.e = false
    rw [c5, h4keys, hk]
  have hportal :
      arenaPhysicsPhases now m = arenaCollideStage now m4 := by
    unfold arenaPhysicsPhases
    rw [← hm4]
    exact arenaExitPortal_noE _ _ hkeyse
  rw [hportal]
  have h4t : m4.timeRemaining = m.timeRemaining := by rw [hm4]; exact p1
  have h4a : m4.isActive = m.isActive := by rw [hm4]; exact p2
  have h4e : m4.isEnding = m.isEnding := by rw [hm4]; exact p3
  have h4x : m4.exitTimeoutMs = m.exitTimeoutMs := by rw [hm4]; exact p4
  exact ⟨c1.trans h4t, c2.trans h4a, c3.trans h4e, c4.trans h4x, hkeyse⟩

/-- Helper: a one-second tick before expiry decrements the timer by
exactly one and changes neither the activity flags, the exit timeout,
nor the interact key. -/
theorem arenaTick_run (now : Int) (m : Arena2D)
    (hA : m.isActive = true) (hE : m.isEnding = false)
    (ht : 0 < m.timeRemaining - 1) (hk : m.gs.keys.e = false) :
    (arenaUpdate 1000 now m).timeRemaining = m.timeRemaining - 1 ∧
    (arenaUpdate 1000 now m).isActive = true ∧
    (arenaUpdate 1000 now m).isEnding = false ∧
    (arenaUpdate 1000 now m).exitTimeoutMs = m.exitTimeoutMs ∧
    (arenaUpdate 1000 now m).gs.keys.e = false := by
  have h1000 : (1000 : ℚ) / 1000 = 1 := by norm_num
  have hred : arenaUpdate 1000 now m =
      arenaPhysicsPhases now { m with timeRemaining := m.timeRemaining - 1000 / 1000 } := by
    unfold arenaUpdate
    rw [hA, hE]
    simp only [Bool.not_true, Bool.false_eq_true, if_false, ite_false]
    rw [if_neg (by rw [h1000]; show ¬(m.timeRemaining - 1 ≤ 0); linarith)]
  rw [hred]
  obtain ⟨q1, q2, q3, q4, q5⟩ :=
    arenaPhases_pres now { m with timeRemaining := m.timeRemaining - 1000 / 1000 } hk
  refine ⟨?_, ?_, ?_, ?_, q5⟩
  · rw [q1]
    show m.timeRemaining - 1000 / 1000 = m.timeRemaining - 1
    rw [h1000]
  · rw [q2]; exact hA
  · rw [q3]; exact hE
  · rw [q4]

/-- Helper: `showFinalScore` changes neither the ending flag, the
activity flag, the timer nor the exit timeout. -/
theorem showFinalScore_pres (m : Arena2D) :
    (showFinalScore m).isEnding = m.isEnding ∧
    (showFinalScore m).isActive = m.isActive ∧
    (showFinalScore m).timeRemaining = m.timeRemaining ∧
    (showFinalScore m).exitTimeoutMs = m.exitTimeoutMs := by
  unfold showFinalScore
  split <;> exact ⟨rfl, rfl, rfl, rfl⟩

/-- Helper: a tick that takes the timer to zero or below calls
`endChallenge` exactly then: the result is ending, keeps the activity
flag, carries the decremented timer and schedules the 5-second exit. -/
theorem arenaTick_end (now : Int) (m : Arena2D)
    (hA : m.isActive = true) (hE : m.isEnding = false)
    (ht : m.timeRemaining - 1 ≤ 0) :
    (arenaUpdate 1000 now m).isEnding = true ∧
    (arenaUpdate 1000 now m).isActive = true ∧
    (arenaUpdate 1000 now m).timeRemaining = m.timeRemaining - 1 ∧
    (arenaUpdate 1000 now m).exitTimeoutMs = some 5000 := by
  have h1000 : (1000 : ℚ) / 1000 = 1 := by norm_num
  have hred : arenaUpdate 1000 now m =
      endChallenge { m with timeRemaining := m.timeRemaining - 1000 / 1000 } := by
    unfold arenaUpdate
    rw [hA, hE]
    simp only [Bool.not_true, Bool.false_eq_true, if_false, ite_false]
    rw [if_pos (by rw [h1000]; show m.timeRemaining - 1 ≤ 0; linarith)]
  rw [hred]
  unfold endChallenge
  obtain ⟨w1, w2, w3, -⟩ :=
    showFinalScore_pres
      { { m with timeRemaining := m.timeRemaining - 1000 / 1000 } with isEnding := true }
  refine ⟨?_, ?_, ?_, rfl⟩
  · show (showFinalScore _).isEnding = true
    rw [w1]
  · show (showFinalScore _).isActive = true
    rw [w2]; exact hA
  · show (showFinalScore _).timeRemaining = m.timeRemaining - 1
    rw [w3]
    show m.timeRemaining - 1000 / 1000 = m.timeRemaining - 1
    rw [h1000]

/-- Helper: once the arena is ending, `update` is the identity (entity
updates stop, the end transition is not re-triggered). -/
theorem arenaTick_ending (dt : ℚ) (now : Int) (m : Arena2D)
    (hE : m.isEnding = true) : arenaUpdate dt now m = m := by
  unfold arenaUpdate
  rw [hE]
  cases m.isActive <;> rfl

/-- Helper: iterated ticks keep the clean run going: after `k ≤ 59`
one-second ticks the timer reads `60 - k` and the arena is still active
and not ending. -/
theorem arenaTick_iter (now : Int) (m : Arena2D)
    (h60 : m.timeRemaining = 60) (hA : m.isActive = true)
    (hE : m.isEnding = false) (hk : m.gs.keys.e = false) :
    ∀ k : Nat, k ≤ 59 →
      ((arenaUpdate 1000 now)^[k] m).timeRemaining = 60 - (k : ℚ) ∧
      ((arenaUpdate 1000 now)^[k] m).isActive = true ∧
      ((arenaUpdate 1000 now)^[k] m).isEnding = false ∧
      ((arenaUpdate 1000 now)^[k] m).exitTimeoutMs = m.exitTimeoutMs ∧
      ((arenaUpdate 1000 now)^[k] m).gs.keys.e = false := by
  intro k
  induction k with
  | zero =>
    intro _
    simp only [Function.iterate_zero, id_eq]
    exact ⟨by rw [h60]; norm_num, hA, hE, trivial, hk⟩
  | succ k ih =>
    intro hk59
    obtain ⟨i1, i2, i3, i4, i5⟩ := ih (by omega)
    have hkc : ((k : ℚ)) ≤ 58 := by
      exact_mod_cast (show k ≤ 58 by omega)
    have ht : 0 < ((arenaUpdate 1000 now)^[k] m).timeRemaining - 1 := by
      rw [i1]; linarith
    obtain ⟨s1, s2, s3, s4, s5⟩ :=
      arenaTick_run now ((arenaUpdate 1000 now)^[k] m) i2 i3 ht i5
    rw [Function.iterate_succ_apply']
    refine ⟨?_, s2, s3, s4.trans i4, s5⟩
    rw [s1, i1]
    push_cast
    ring

/-- Claim C5: starting a training arena at `timeRemaining = 60` and
ticking it with one-second updates and no portal exit, the 59th tick
has not yet ended the challenge; the 60th tick takes the timer to 0 and
transitions into the ending sub-state, scheduling the fixed 5-second
exit timeout while the arena stays active (so rendering continues);
every further tick is the identity (entity updates stop and
`endChallenge` is not re-triggered); and the exit-timeout firing then
deactivates the arena. -/
theorem c5_timerEndsOnce (now : Int) (m : Arena2D)
    (h60 : m.timeRemaining = 60) (hA : m.isActive = true)
    (hE : m.isEnding = false) (hk : m.gs.keys.e = false) :
    ((arenaUpdate 1000 now)^[59] m).isEnding = false ∧
    ((arenaUpdate 1000 now)^[60] m).isEnding = true ∧
    ((arenaUpdate 1000 now)^[60] m).timeRemaining ≤ 0 ∧
    ((arenaUpdate 1000 now)^[60] m).isActive = true ∧
    ((arenaUpdate 1000 now)^[60] m).exitTimeoutMs = some 5000 ∧
    (∀ j : Nat, (arenaUpdate 1000 now)^[j] ((arenaUpdate 1000 now)^[60] m) =
      (arenaUpdate 1000 now)^[60] m) ∧
    (fireExitTimeout ((arenaUpdate 1000 now)^[60] m)).isActive = false := by
  obtain ⟨i1, i2, i3, -, i5⟩ :=
    arenaTick_iter now m h60 hA hE hk 59 (by omega)
  have ht : ((arenaUpdate 1000 now)^[59] m).timeRemaining - 1 ≤ 0 := by
    rw [i1]; norm_num
  obtain ⟨e1, e2, e3, e4⟩ :=
    arenaTick_end now ((arenaUpdate 1000 now)^[59] m) i2 i3 ht
  have h60eq : (arenaUpdate 1000 now)^[60] m =
      arenaUpdate 1000 now ((arenaUpdate 1000 now)^[59] m) :=
    Function.iterate_succ_apply' (arenaUpdate 1000 now) 59 m
  refine ⟨i3, ?_, ?_, ?_, ?_, ?_, ?_⟩
  · rw [h60eq]; exact e1
  · rw [h60eq, e3, i1]; norm_num
  · rw [h60eq]; exact e2
  · rw [h60eq]; exact e4
  · intro j
    apply Function.iterate_fixed
    apply arenaTick_ending
    rw [h60eq]; exact e1
  · rfl

/-- Witness for C5 on a concretely initialized arena. -/
theorem c5_timerEndsOnce_witness :
    ((arenaUpdate 1000 0)^[59] c5Arena).isEnding = false ∧
    ((arenaUpdate 1000 0)^[60] c5Arena).isEnding = true ∧
    ((arenaUpdate 1000 0)^[60] c5Arena).timeRemaining ≤ 0 ∧
    ((arenaUpdate 1000 0)^[60] c5Arena).isActive = true ∧
    ((arenaUpdate 1000 0)^[60] c5Arena).exitTimeoutMs = some 5000 ∧
    (∀ j : Nat, (arenaUpdate 1000 0)^[j] ((arenaUpdate 1000 0)^[60] c5Arena) =
      (arenaUpdate 1000 0)^[60] c5Arena) ∧
    (fireExitTimeout ((arenaUpdate 1000 0)^[60] c5Arena)).isActive = false :=
  c5_timerEndsOnce 0 c5Arena rfl rfl rfl rfl

/-- Helper: setting index `k` does not change the first `k` entries. -/
theorem take_set_self {α : Type} : ∀ (l : List α) (k : Nat) (b : α),
    (l.set k b).take k = l.take k := by
  intro l
  induction l with
  | nil => intro k b; simp
  | cons a t ih =>
    intro k b
    cases k with
    | zero => simp
    | succ k => simp [ih]

/-- Helper: setting index `k` does not change the entries past it. -/
theorem drop_set_succ_self {α : Type} (l : List α) (k : Nat) (b : α) :
    (l.set k b).drop (k + 1) = l.drop (k + 1) := by
  rw [List.drop_set, if_pos (by omega)]

/-- Helper: erasing the freshly set index recovers the surrounding
entries. -/
theorem eraseIdx_set_self {α : Type} (l : List α) (k : Nat) (b : α) :
    (l.set k b).eraseIdx k = l.take k ++ l.drop (k + 1) := by
  rw [List.eraseIdx_eq_take_drop_succ, take_set_self, drop_set_succ_self]

/-- Helper: dropping up to a freshly set index exposes the new entry. -/
theorem drop_set_self {α : Type} (l : List α) (k : Nat) (b : α)
    (h : k < l.length) : (l.set k b).drop k = b :: l.drop (k + 1) := by
  rw [List.drop_set, if_neg (by omega), Nat.sub_self]
  rw [List.drop_eq_getElem_cons h, List.set_cons_zero]

/-- Helper: the arena bullet loop with fuel `k` moves each of the first
`k` bullets by exactly its velocity, keeps exactly the in-bounds ones,
and leaves the rest of the list untouched. -/
theorem arenaBulletsGo_spec (c : Canvas) : ∀ (k : Nat) (bs : List Bullet),
    k ≤ bs.length →
    arenaBulletsGo c k bs =
      ((bs.take k).map moveBullet).filter (fun b => !offscreenB c b)
        ++ bs.drop k := by
  intro k
  induction k with
  | zero => intro bs h; simp [arenaBulletsGo]
  | succ k ih =>
    intro bs h
    have hk : k < bs.length := h
    obtain ⟨b, hb⟩ : ∃ b, bs[k]? = some b := ⟨_, List.getElem?_eq_getElem hk⟩
    simp only [arenaBulletsGo, hb]
    by_cases hoff : offscreenB c (moveBullet b) = true
    · rw [if_pos hoff, eraseIdx_set_self]
      rw [ih (bs.take k ++ bs.drop (k + 1))
        (by simp [List.length_take, List.length_drop]; omega)]
      rw [List.take_left' (by simp [List.length_take]; omega),
        List.drop_left' (by simp [List.length_take]; omega)]
      rw [List.take_succ, hb]
      simp [hoff]
    · rw [if_neg hoff]
      rw [ih (bs.set k (moveBullet b)) (by simp; omega)]
      rw [take_set_self, drop_set_self bs k (moveBullet b) hk]
      rw [List.take_succ, hb]
      simp [hoff]

/-- Helper: a task-game platform-landing step does not touch the
bullets, the task objects, the buttons or the keys. -/
theorem taskGameLandOn_pres (st : GState) (p : Platform) :
    (taskGameLandOn st p).bullets = st.bullets ∧
    (taskGameLandOn st p).taskObjects = st.taskObjects ∧
    (taskGameLandOn st p).taskGameButtons = st.taskGameButtons ∧
    (taskGameLandOn st p).keys = st.keys := by
  unfold taskGameLandOn
  split <;> exact ⟨rfl, rfl, rfl, rfl⟩

/-- Helper: the task-game platform loop does not touch the bullets, the
task objects, the buttons or the keys. -/
theorem foldl_taskGameLandOn_pres (l : List Platform) : ∀ s : GState,
    (l.foldl taskGameLandOn s).bullets = s.bullets ∧
    (l.foldl taskGameLandOn s).taskObjects = s.taskObjects ∧
    (l.foldl taskGameLandOn s).taskGameButtons = s.taskGameButtons ∧
    (l.foldl taskGameLandOn s).keys = s.keys := by
  induction l with
  | nil => intro s; exact ⟨rfl, rfl, rfl, rfl⟩
  | cons p pl ih =>
    intro s
    obtain ⟨a1, a2, a3, a4⟩ := taskGameLandOn_pres s p
    obtain ⟨b1, b2, b3, b4⟩ := ih (taskGameLandOn s p)
    exact ⟨b1.trans a1, b2.trans a2, b3.trans a3, b4.trans a4⟩

/-- Helper: the task-game boundary clamps do not touch the bullets, the
task objects, the buttons or the keys. -/
theorem taskGameBounds_pres (c : Canvas) (s : GState) :
    (taskGameBounds c s).bullets = s.bullets ∧
    (taskGameBounds c s).taskObjects = s.taskObjects ∧
    (taskGameBounds c s).taskGameButtons = s.taskGameButtons ∧
    (taskGameBounds c s).keys = s.keys := by
  unfold taskGameBounds
  dsimp only
  split_ifs <;> exact ⟨rfl, rfl, rfl, rfl⟩

/-- Helper: the whole task-game movement section does not touch the
bullets, the task objects, the buttons or the keys. -/
theorem taskGameMovePhase_pres (s : GState) (c : Canvas) :
    (taskGameMovePhase s c).bullets = s.bullets ∧
    (taskGameMovePhase s c).taskObjects = s.taskObjects ∧
    (taskGameMovePhase s c).taskGameButtons = s.taskGameButtons ∧
    (taskGameMovePhase s c).keys = s.keys := by
  unfold taskGameMovePhase
  dsimp only
  refine ⟨?_, ?_, ?_, ?_⟩
  · rw [(taskGameBounds_pres _ _).1, (foldl_taskGameLandOn_pres _ _).1]
  · rw [(taskGameBounds_pres _ _).2.1, (foldl_taskGameLandOn_pres _ _).2.1]
  · rw [(taskGameBounds_pres _ _).2.2.1, (foldl_taskGameLandOn_pres _ _).2.2.1]
  · rw [(taskGameBounds_pres _ _).2.2.2, (foldl_taskGameLandOn_pres _ _).2.2.2]

/-- Helper: when none of the first `k` bullets (after moving) touches a
task object or a button, the task-game bullet loop just moves them,
keeps exactly the in-bounds ones, and changes nothing else. -/
theorem bulletLoopGo_noHit (c : Canvas) : ∀ (k : Nat) (s : GState) (tc : Bool),
    k ≤ s.bullets.length →
    (∀ b ∈ s.bullets.take k,
      s.taskObjects.findIdx? (fun o => hitsTaskObj (moveBullet b) o) = none ∧
      s.taskGameButtons.find? (fun btn => hitsButton (moveBullet b) btn) = none) →
    bulletLoopGo c k (s, tc) =
      ({ s with bullets :=
          ((s.bullets.take k).map moveBullet).filter (fun b => !offscreenB c b)
            ++ s.bullets.drop k }, tc) := by
  intro k
  induction k with
  | zero =>
    intro s tc h hhit
    simp only [List.take_zero, List.map_nil, List.filter_nil, List.nil_append,
      List.drop_zero]
    rfl
  | succ k ih =>
    intro s tc h hhit
    have hk : k < s.bullets.length := h
    obtain ⟨b, hb⟩ : ∃ b, s.bullets[k]? = some b := ⟨_, List.getElem?_eq_getElem hk⟩
    have hhit1 := hhit b (by rw [List.take_succ, hb]; exact List.mem_append_right _ (by simp))
    have hhitk : ∀ x ∈ s.bullets.take k,
        s.taskObjects.findIdx? (fun o => hitsTaskObj (moveBullet x) o) = none ∧
        s.taskGameButtons.find? (fun btn => hitsButton (moveBullet x) btn) = none :=
      fun x hx => hhit x (by rw [List.take_succ]; exact List.mem_append_left _ hx)
    show bulletLoopGo c k (bulletStep c k s tc) = _
    by_cases hoff : offscreenB c (moveBullet b) = true
    · have hstep : bulletStep c k s tc =
          ({ s with bullets := s.bullets.take k ++ s.bullets.drop (k + 1) }, tc) := by
        unfold bulletStep
        rw [hb]
        dsimp only
        rw [if_pos hoff, eraseIdx_set_self]
      rw [hstep]
      rw [ih { s with bullets := s.bullets.take k ++ s.bullets.drop (k + 1) } tc
        (by simp [List.length_take, List.length_drop]; omega)
        (by
          intro x hx
          refine hhitk x ?_
          rwa [List.take_left' (by simp [List.length_take]; omega)] at hx)]
      rw [List.take_left' (by simp [List.length_take]; omega),
        List.drop_left' (by simp [List.length_take]; omega)]
      rw [List.take_succ, hb]
      simp [hoff]
    · have hstep : bulletStep c k s tc =
          ({ s with bullets := s.bullets.set k (moveBullet b) }, tc) := by
        unfold bulletStep
        rw [hb]
        dsimp only
        rw [if_neg hoff, hhit1.1]
        dsimp only
        rw [hhit1.2]
      rw [hstep]
      rw [ih { s with bullets := s.bullets.set k (moveBullet b) } tc
        (by simp; omega)
        (by
          intro x hx
          refine hhitk x ?_
          rwa [take_set_self] at hx)]
      rw [take_set_self, drop_set_self s.bullets k (moveBullet b) hk]
      rw [List.take_succ, hb]
      simp [hoff]

/-- Counterexample to C4 as stated: in `c4State` the second bullet is
present, its move keeps it inside the canvas and it overlaps no task
object and no button — yet after one `updateTaskGame` the bullet list
is empty: the first bullet hit a completed task object that overlaps
the Exit button, so the same frame also pressed Exit, and
`closeTaskGame` cleared the whole list, removing a bullet that neither
left the canvas nor hit anything. -/
theorem c4_counterexample :
    c4State.bullets = [⟨190, 65, 10, -5, 5⟩, ⟨20, 195, 10, -5, 5⟩] ∧
    offscreenB c4Canvas (moveBullet ⟨20, 195, 10, -5, 5⟩) = false ∧
    c4State.taskObjects.findIdx?
      (fun o => hitsTaskObj (moveBullet ⟨20, 195, 10, -5, 5⟩) o) = none ∧
    c4State.taskGameButtons.find?
      (fun btn => hitsButton (moveBullet ⟨20, 195, 10, -5, 5⟩) btn) = none ∧
    (updateTaskGame 16 c4State c4Canvas 0).bullets = [] := by
  norm_num [updateTaskGame, taskGameMovePhase, taskGameLandOn, taskGameBounds,
    bulletLoopGo, bulletStep, activateTaskArenaChallengeSync, closeTaskGame,
    createNewTaskInputEffect, moveBullet, offscreenB, hitsTaskObj, hitsButton,
    hitsRect, taskAt, spliceOneAt, decFrom, setupTaskGameEnvironment,
    shootTaskGame, c4State, c4Canvas, sampleState, sampleCanvas, Keys.allFalse,
    List.findIdx?, List.mapIdx]
  rw [if_neg (show ¬("exit" = "new_task") by decide)]
  simp

/-- Claim C4 as amended: every bullet moves by exactly `(vx, vy)` per
update; in the arena bullet loop the surviving list is exactly the
moved in-bounds bullets (each removed exactly once, when it leaves the
canvas), and the task-game loop behaves the same whenever no moved
bullet touches a task object or a button — but a bullet whose position
also lies inside a UI button triggers that button in the same frame
(the Exit button then clears the entire bullet list), so removal is not
always tied to the removed bullet's own exit or hit.  The task-game
part requires `keys.t = false`: with the diagnostic `T` key pressed the
source re-enters `updateTaskGame` through `runDiagnosticTest` and never
completes the tick, so no completed-tick statement covers it. -/
theorem c4_bulletLifecycle :
    (∀ (c : Canvas) (bs : List Bullet),
      arenaUpdateBullets c bs =
        (bs.map moveBullet).filter (fun b => !offscreenB c b)) ∧
    (∀ (dt : ℚ) (s : GState) (c : Canvas) (now : Int),
      s.isPaused = false → s.currentTaskChallenge = none → s.keys.l = false →
      s.keys.t = false →
      (∀ b ∈ s.bullets,
        s.taskObjects.findIdx? (fun o => hitsTaskObj (moveBullet b) o) = none ∧
        s.taskGameButtons.find? (fun btn => hitsButton (moveBullet b) btn) = none) →
      (updateTaskGame dt s c now).bullets =
        (s.bullets.map moveBullet).filter (fun b => !offscreenB c b)) := by
  constructor
  · intro c bs
    unfold arenaUpdateBullets
    rw [arenaBulletsGo_spec c bs.length bs (le_refl _)]
    simp
  · intro dt s c now hp hch hl _ht hhit
    obtain ⟨m1, m2, m3, m4⟩ := taskGameMovePhase_pres s c
    have hhitm : ∀ b ∈ (taskGameMovePhase s c).bullets.take
        (taskGameMovePhase s c).bullets.length,
        (taskGameMovePhase s c).taskObjects.findIdx?
          (fun o => hitsTaskObj (moveBullet b) o) = none ∧
        (taskGameMovePhase s c).taskGameButtons.find?
          (fun btn => hitsButton (moveBullet b) btn) = none := by
      intro b hbmem
      rw [m2, m3]
      apply hhit
      rw [List.take_length, m1] at hbmem
      exact hbmem
    have hloop := bulletLoopGo_noHit c (taskGameMovePhase s c).bullets.length
      (taskGameMovePhase s c) false (le_refl _) hhitm
    unfold updateTaskGame
    rw [if_neg (by simp [hp, hch])]
    dsimp only
    rw [hloop]
    dsimp only
    have hln : ¬((taskGameMovePhase s c).keys.l = true) := by
      rw [m4, hl]; simp
    rw [if_neg (show ¬(false = true) by simp)]
    dsimp only
    rw [if_neg hln]
    simp [List.take_length, List.drop_length, m1]

/-- Witness for the amended C4 on a task-game state whose two bullets
hit nothing: one stays in bounds, one leaves the canvas. -/
theorem c4_bulletLifecycle_witness :
    (updateTaskGame 16 c4CleanState sampleCanvas 0).bullets =
      (c4CleanState.bullets.map moveBullet).filter
        (fun b => !offscreenB sampleCanvas b) :=
  c4_bulletLifecycle.2 16 c4CleanState sampleCanvas 0 rfl rfl rfl rfl
    (by intro b hb; exact ⟨rfl, rfl⟩)

end AppGame
